import Mathlib

set_option autoImplicit false

namespace CyHy

/-! Shallow embedding of cyhy/db/ticket_manager.py: ticket reconciliation for
vulnerability scans (VulnTicketManager), port scans (IPPortTicketManager) and
host scans (IPTicketManager).  Python dictionaries holding ticket details are
modelled as association lists over a value type; MongoDB find_one / save on
the ticket collection are modelled as first-match lookup and first-match
replacement on a list of tickets; timestamps are integers. -/

/-- Values stored in the details dictionary of a ticket.  vNull models the
Python None, which is also what dict.get returns for a missing key. -/
inductive Val where
  | vNull : Val
  | vBool : Bool → Val
  | vInt : Int → Val
  | vRat : ℚ → Val
  | vStr : String → Val
deriving DecidableEq, Repr

/-- A details dictionary: association list from string keys to values. -/
abbrev Dict := List (String × Val)

/-- Embeds d.get(k): the stored value, or None (vNull) when the key is absent. -/
def dget (d : Dict) (k : String) : Val :=
  match d.find? (fun p => p.1 == k) with
  | some p => p.2
  | none => Val.vNull

/-- One entry of the change list produced by VulnTicketManager.__calculate_delta:
the dictionary with keys "key", "from", "to". -/
structure DeltaEntry where
  key : String
  from_ : Val
  to_ : Val
deriving DecidableEq, Repr

/-- Union of the key sets of the two dictionaries, as in
set(d1.keys() + d2.keys()). -/
def allKeys (d1 d2 : Dict) : List String :=
  ((d1.map Prod.fst) ++ (d2.map Prod.fst)).dedup

/-- The delta entry contributed by key k, if the two values differ. -/
def deltaAt (d1 d2 : Dict) (k : String) : Option DeltaEntry :=
  if dget d1 k ≠ dget d2 k then some ⟨k, dget d1 k, dget d2 k⟩ else none

/-- Embeds VulnTicketManager.__calculate_delta: one entry per key of the union
whose values differ (missing keys read as None). -/
def calculate_delta (d1 d2 : Dict) : List DeltaEntry :=
  (allKeys d1 d2).filterMap (deltaAt d1 d2)

theorem dget_of_not_mem {d : Dict} {k : String} (h : k ∉ d.map Prod.fst) :
    dget d k = Val.vNull := by
  unfold dget
  cases hf : d.find? (fun p => p.1 == k) with
  | none => rfl
  | some p =>
    exfalso
    have hmem := List.mem_of_find?_eq_some hf
    have hp : p.1 = k := by
      have := List.find?_some hf
      simpa using this
    exact h (by simpa [hp] using List.mem_map_of_mem Prod.fst hmem)

theorem delta_countP_key (d1 d2 : Dict) (L : List String) (hnd : L.Nodup)
    (k : String) :
    ((L.filterMap (deltaAt d1 d2)).countP (fun e => e.key == k))
      = if k ∈ L ∧ dget d1 k ≠ dget d2 k then 1 else 0 := by
  induction L with
  | nil => simp
  | cons a L ih =>
    have hndL : L.Nodup := hnd.of_cons
    have hka : a ∉ L := by
      intro hmem
      exact (List.nodup_cons.mp hnd).1 hmem
    by_cases hdiff : dget d1 a ≠ dget d2 a
    · have : deltaAt d1 d2 a = some ⟨a, dget d1 a, dget d2 a⟩ := by
        simp [deltaAt, hdiff]
      rw [List.filterMap_cons, this]
      rw [List.countP_cons, ih hndL]
      by_cases hk : k = a
      · subst hk
        simp [hka, hdiff]
      · simp [List.mem_cons, hk, Ne.symm hk]
    · have : deltaAt d1 d2 a = none := by
        simp [deltaAt] at hdiff ⊢
        exact hdiff
      rw [List.filterMap_cons, this, ih hndL]
      by_cases hk : k = a
      · subst hk
        simp at hdiff
        simp [hdiff]
      · simp [List.mem_cons, hk]

theorem delta_countP_entry (d1 d2 : Dict) (L : List String) (hnd : L.Nodup)
    (k : String) :
    ((L.filterMap (deltaAt d1 d2)).countP
        (fun e => e == ⟨k, dget d1 k, dget d2 k⟩))
      = if k ∈ L ∧ dget d1 k ≠ dget d2 k then 1 else 0 := by
  induction L with
  | nil => simp
  | cons a L ih =>
    have hndL : L.Nodup := hnd.of_cons
    have hka : a ∉ L := (List.nodup_cons.mp hnd).1
    by_cases hdiff : dget d1 a ≠ dget d2 a
    · have : deltaAt d1 d2 a = some ⟨a, dget d1 a, dget d2 a⟩ := by
        simp [deltaAt, hdiff]
      rw [List.filterMap_cons, this]
      rw [List.countP_cons, ih hndL]
      by_cases hk : k = a
      · subst hk
        simp [hka, hdiff]
      · have : (DeltaEntry.mk a (dget d1 a) (dget d2 a)
            == DeltaEntry.mk k (dget d1 k) (dget d2 k)) = false := by
          simp [Ne.symm hk]
        simp [List.mem_cons, hk, this]
    · have : deltaAt d1 d2 a = none := by
        simp [deltaAt] at hdiff ⊢
        exact hdiff
      rw [List.filterMap_cons, this, ih hndL]
      by_cases hk : k = a
      · subst hk
        simp at hdiff
        simp [hdiff]
      · simp [List.mem_cons, hk]

theorem mem_allKeys_of_diff {d1 d2 : Dict} {k : String}
    (h : dget d1 k ≠ dget d2 k) : k ∈ allKeys d1 d2 := by
  rw [allKeys, List.mem_dedup, List.mem_append]
  by_contra hc
  push_neg at hc
  exact h (by rw [dget_of_not_mem hc.1, dget_of_not_mem hc.2])

/-- Example dictionaries from the delta completeness property. -/
def exD1 : Dict := [("a", Val.vInt 1), ("b", Val.vInt 2)]

def exD2 : Dict := [("a", Val.vInt 1), ("b", Val.vInt 3), ("c", Val.vInt 4)]

/-- C8: Delta completeness: for every pair of details dictionaries, the
computed delta contains exactly one entry {key, from, to} for each key of the
union of the key sets whose values differ (a key present in only one side
contributes an entry whose missing side is null), no entry for any key with
equal values; and comparing {a:1,b:2} to {a:1,b:3,c:4} yields exactly the
entries b (2 to 3) and c (null to 4) and none for a. -/
theorem calculate_delta_completeness :
    (∀ (d1 d2 : Dict) (k : String),
      ((calculate_delta d1 d2).countP
          (fun e => e == ⟨k, dget d1 k, dget d2 k⟩)
        = if dget d1 k ≠ dget d2 k then 1 else 0)
      ∧ ((calculate_delta d1 d2).countP (fun e => e.key == k)
        = if dget d1 k ≠ dget d2 k then 1 else 0))
    ∧ calculate_delta exD1 exD2
        = [⟨"b", Val.vInt 2, Val.vInt 3⟩, ⟨"c", Val.vNull, Val.vInt 4⟩] := by
  constructor
  · intro d1 d2 k
    have hnd : (allKeys d1 d2).Nodup := List.nodup_dedup _
    constructor
    · rw [calculate_delta, delta_countP_entry d1 d2 _ hnd k]
      by_cases hdiff : dget d1 k ≠ dget d2 k
      · simp [hdiff, mem_allKeys_of_diff hdiff]
      · simp at hdiff
        simp [hdiff]
    · rw [calculate_delta, delta_countP_key d1 d2 _ hnd k]
      by_cases hdiff : dget d1 k ≠ dget d2 k
      · simp [hdiff, mem_allKeys_of_diff hdiff]
      · simp at hdiff
        simp [hdiff]
  · decide

/-- Embeds cyhy.core.common.TICKET_EVENT. -/
inductive TicketAction where
  | OPENED : TicketAction
  | VERIFIED : TicketAction
  | REOPENED : TicketAction
  | CHANGED : TicketAction
  | CLOSED : TicketAction
  | UNVERIFIED : TicketAction
deriving DecidableEq, Repr

/-- An event dictionary appended to the events list of a ticket.  delta is
the empty list for events that carry no delta; manual is false for events
whose dictionary carries no manual flag. -/
structure Event where
  action : TicketAction
  reason : String
  reference : Option Nat
  time : Int
  delta : List DeltaEntry
  manual : Bool
deriving DecidableEq, Repr

/-- Identity key of a ticket: (ip, port, protocol, source, source_id).
The ip is the integer form (ip_int). -/
structure TKey where
  ip : Nat
  port : Nat
  protocol : String
  source : String
  source_id : Nat
deriving DecidableEq, Repr

/-- A ticket document.  Modelled from the spec: the TicketDoc schema lives in
cyhy/db/database.py, outside the sources; the fields below follow the data
model of the spec (open, false_positive with an expiration date, owner, loc,
details, time_opened, time_closed, events) plus the identity-key fields.  The
false_positive_dates property is modelled by the stored expiration date
fp_expiration, the only component the manager code reads. -/
structure Ticket where
  tid : Nat
  ip : Nat
  port : Nat
  protocol : String
  source : String
  source_id : Nat
  owner : String
  loc : Option String
  open_ : Bool
  false_positive : Bool
  fp_expiration : Int
  details : Dict
  time_opened : Option Int
  time_closed : Option Int
  events : List Event
deriving DecidableEq, Repr

def Ticket.key (t : Ticket) : TKey :=
  ⟨t.ip, t.port, t.protocol, t.source, t.source_id⟩

/-- A NotificationDoc as created by __create_notification. -/
structure Notification where
  ticket_id : Nat
  ticket_owner : String
  generated_for : List String
deriving DecidableEq, Repr

/-- A CVEDoc from the NVD collection, as read by __generate_ticket_details. -/
structure CVEDoc where
  cveId : String
  cvss_score : ℚ
  cvss_version : String
  severity : Int
deriving DecidableEq, Repr

/-- The database state visible to the ticket managers: the ticket collection,
the notification collection, the CVE and KEV collections and the host
documents (ip to loc).  nextId supplies the id of the next inserted ticket. -/
structure DB where
  tickets : List Ticket
  notifications : List Notification
  cveDocs : List CVEDoc
  kevIds : List String
  hosts : List (Nat × String)
  nextId : Nat
deriving DecidableEq, Repr

/-- Embeds find_one on a collection: the first document matching the filter,
or none when no document matches. -/
def findOne {α : Type} (p : α → Bool) : List α → Option α
  | [] => none
  | x :: xs => if p x then some x else findOne p xs

/-- Embeds save of a modified document that was obtained through find_one with
the same filter: the first matching document is replaced in place. -/
def saveFirst {α : Type} (p : α → Bool) (y : α) : List α → List α
  | [] => []
  | x :: xs => if p x then y :: xs else x :: saveFirst p y xs

/-- Embeds the add method of a Python set represented as a list. -/
def sadd (x : Nat) (s : List Nat) : List Nat :=
  if x ∈ s then s else x :: s

/-- Appends a new NotificationDoc, as __create_notification does. -/
def addNotification (db : DB) (t : Ticket) : DB :=
  { db with notifications :=
      db.notifications ++ [⟨t.tid, t.owner, []⟩] }

/-- Embeds cyhy.core.common.UNKNOWN_OWNER, the sentinel owner name. -/
def UNKNOWN_OWNER : String := "UNKNOWN"

def MAX_PORTS_COUNT : Nat := 65535

/-- A vulnerability scan document (the vuln argument of open_ticket).
Optional fields model dictionary keys that may be absent. -/
structure VulnScan where
  vid : Nat
  ip : Nat
  port : Nat
  protocol : String
  source : String
  plugin_id : Nat
  plugin_name : String
  severity : Int
  cvss_base_score : ℚ
  cvss3_base_score : Option ℚ
  cve : Option String
  vpr_score : Option ℚ
  owner : String
  time : Int
deriving DecidableEq, Repr

def VulnScan.key (v : VulnScan) : TKey :=
  ⟨v.ip, v.port, v.protocol, v.source, v.plugin_id⟩

/-- The new_details dictionary built by __generate_ticket_details, kept as a
record while it is being filled in; the Python dictionary always holds
exactly these eight keys. -/
structure VDetails where
  cve : Option String
  cvss_base_score : ℚ
  cvss_version : String
  kev : Bool
  name : String
  score_source : String
  severity : Int
  vpr_score : Option ℚ
deriving DecidableEq, Repr

def optStrVal : Option String → Val
  | none => Val.vNull
  | some s => Val.vStr s

def optRatVal : Option ℚ → Val
  | none => Val.vNull
  | some q => Val.vRat q

/-- The details record as the stored dictionary. -/
def VDetails.toDict (d : VDetails) : Dict :=
  [("cve", optStrVal d.cve),
   ("cvss_base_score", Val.vRat d.cvss_base_score),
   ("cvss_version", Val.vStr d.cvss_version),
   ("kev", Val.vBool d.kev),
   ("name", Val.vStr d.name),
   ("score_source", Val.vStr d.score_source),
   ("severity", Val.vInt d.severity),
   ("vpr_score", optRatVal d.vpr_score)]

/-- The first half of the construction of new_details in
VulnTicketManager.__generate_ticket_details: base values from the scan
document, the NVD override when the CVE document exists, and the KEV flag. -/
def nvdOverride (db : DB) (v : VulnScan) : VDetails :=
  let d : VDetails :=
    { cve := v.cve
      cvss_base_score := v.cvss3_base_score.getD v.cvss_base_score
      cvss_version := if v.cvss3_base_score.isSome then "3" else "2"
      kev := false
      name := v.plugin_name
      score_source := v.source
      severity := v.severity
      vpr_score := v.vpr_score }
  match v.cve with
  | none => d
  | some c =>
    let d :=
      match findOne (fun cd => cd.cveId == c) db.cveDocs with
      | some cdoc =>
        { d with cvss_base_score := cdoc.cvss_score
                 cvss_version := cdoc.cvss_version
                 score_source := "nvd"
                 severity := cdoc.severity }
      | none => d
    if db.kevIds.contains c then { d with kev := true } else d

/-- The second half of __generate_ticket_details: the severity re-derivation
from the CVSS score when the score source is not nvd. -/
def severityRecompute (d : VDetails) : VDetails :=
  if d.score_source ≠ "nvd" then
    let cvss := d.cvss_base_score
    if d.cvss_version = "2" then
      { d with severity :=
          if cvss = 10 then 4
          else if 7 ≤ cvss then 3
          else if 4 ≤ cvss then 2
          else 1 }
    else if d.cvss_version = "3" then
      { d with severity :=
          if 9 ≤ cvss then 4
          else if 7 ≤ cvss then 3
          else if 4 ≤ cvss then 2
          else 1 }
    else d
  else d

/-- Embeds the construction of new_details in
VulnTicketManager.__generate_ticket_details. -/
def generate_details (db : DB) (v : VulnScan) : VDetails :=
  severityRecompute (nvdOverride db v)

/-- The CHANGED event recorded when a false positive expires. -/
def fpExpiredEvent (time : Int) (manual : Bool) : Event :=
  { action := TicketAction.CHANGED
    reason := "False positive expired"
    reference := none
    time := time
    delta := [⟨"false_positive", Val.vBool true, Val.vBool false⟩]
    manual := manual }

/-- Embeds __check_false_positive_expiration: when the ticket is a false
positive whose expiration date lies before the given time, the flag is
flipped and a CHANGED event appended. -/
def check_fp_expiration (manual : Bool) (t : Ticket) (time : Int) : Ticket :=
  if t.false_positive then
    if t.fp_expiration < time then
      { t with false_positive := false
               events := t.events ++ [fpExpiredEvent time manual] }
    else t
  else t

/-- Embeds VulnTicketManager.__generate_ticket_details applied to a ticket:
computes new_details, optionally records a CHANGED event holding the delta
against the stored details, stores the new details, and returns the delta. -/
def generate_ticket_details (manual : Bool) (db : DB) (v : VulnScan)
    (t : Ticket) (check_for_changes : Bool) : Ticket × List DeltaEntry :=
  let nd := (generate_details db v).toDict
  let delta :=
    if check_for_changes then calculate_delta t.details nd else []
  let t1 :=
    if delta ≠ [] then
      { t with events := t.events ++
          [{ action := TicketAction.CHANGED
             reason := "details changed"
             reference := some v.vid
             time := v.time
             delta := delta
             manual := manual }] }
    else t
  ({ t1 with details := nd }, delta)

/-- State of a VulnTicketManager for one run.  reopen_delta is the (negative)
number of days added to the current time to obtain the reopen cutoff. -/
structure VulnTM where
  closing_time : Option Int
  ips : List Nat
  manual_scan : Bool
  ports : List Nat
  reopen_delta : Int
  seen_ticket_ids : List Nat
  source : String
  source_ids : List Nat
deriving DecidableEq, Repr

/-- The filter of the first find_one in open_ticket: an open ticket at the
identity key of the scan document. -/
def matchOpenVuln (v : VulnScan) (t : Ticket) : Bool :=
  t.open_ && t.key == v.key

/-- The filter of the second find_one in open_ticket: a closed ticket at the
same key whose time_closed is after the cutoff. -/
def matchReopenVuln (v : VulnScan) (cutoff : Int) (t : Ticket) : Bool :=
  !t.open_ && t.key == v.key &&
    (match t.time_closed with
     | some tc => decide (cutoff < tc)
     | none => false)

/-- The notification test applied to one delta entry: severity crossing from
below 3 to 3 or above, or kev flipping from False to True. -/
def notifyDelta (d : DeltaEntry) : Bool :=
  (d.key == "severity" &&
    (match d.from_, d.to_ with
     | Val.vInt a, Val.vInt b => decide (a < 3) && decide (3 ≤ b)
     | _, _ => false))
  || (d.key == "kev" && d.from_ == Val.vBool false && d.to_ == Val.vBool true)

/-- The notification test for a brand-new ticket: stored severity above 2, or
kev set. -/
def newTicketNotify (d : Dict) : Bool :=
  (match dget d "severity" with
   | Val.vInt s => decide (2 < s)
   | _ => false)
  || dget d "kev" == Val.vBool true

/-- The closing-time update at the top of open_ticket. -/
def obsTime (c : Option Int) (t : Int) : Int :=
  match c with
  | none => t
  | some x => if x < t then t else x

/-- The VERIFIED event appended by the verify branch. -/
def verifiedEvent (manual : Bool) (reason : String) (ref : Nat) (time : Int) :
    Event :=
  { action := TicketAction.VERIFIED
    reason := reason
    reference := some ref
    time := time
    delta := []
    manual := manual }

/-- The ticket state saved by the verify branch of
VulnTicketManager.open_ticket: details regeneration (possibly appending a
CHANGED event), false-positive expiration, then the VERIFIED event. -/
def vulnVerifyTicket (tm : VulnTM) (db : DB) (v : VulnScan) (reason : String)
    (prev : Ticket) : Ticket :=
  let t1 := (generate_ticket_details tm.manual_scan db v prev true).1
  let t2 := check_fp_expiration tm.manual_scan t1 v.time
  { t2 with events := t2.events ++
      [verifiedEvent tm.manual_scan reason v.vid v.time] }

/-- The branch of VulnTicketManager.open_ticket for an existing open ticket:
save the verified ticket, mark seen, and the notification check over the
delta, guarded on the ticket not being a false positive. -/
def vulnVerify (tm : VulnTM) (db : DB) (v : VulnScan) (reason : String)
    (prev : Ticket) : VulnTM × DB :=
  let delta := (generate_ticket_details tm.manual_scan db v prev true).2
  let t3 := vulnVerifyTicket tm db v reason prev
  let db1 := { db with tickets := saveFirst (matchOpenVuln v) t3 db.tickets }
  let tm1 := { tm with seen_ticket_ids := sadd t3.tid tm.seen_ticket_ids }
  if !t3.false_positive && delta.any notifyDelta then (tm1, addNotification db1 t3)
  else (tm1, db1)

/-- The ticket state saved by the reopen branch: details regeneration
(possibly appending a CHANGED event), REOPENED event, reopened flags. -/
def vulnReopenTicket (tm : VulnTM) (db : DB) (v : VulnScan) (reason : String)
    (rt : Ticket) : Ticket :=
  let t1 := (generate_ticket_details tm.manual_scan db v rt true).1
  { t1 with
      events := t1.events ++
        [{ action := TicketAction.REOPENED
           reason := reason
           reference := some v.vid
           time := v.time
           delta := []
           manual := tm.manual_scan }]
      open_ := true
      time_closed := none }

/-- The branch of VulnTicketManager.open_ticket reopening a recently closed
ticket: save the reopened ticket, mark seen, and the notification check over
the delta (no false-positive guard in this branch). -/
def vulnReopen (tm : VulnTM) (db : DB) (v : VulnScan) (reason : String)
    (cutoff : Int) (rt : Ticket) : VulnTM × DB :=
  let delta := (generate_ticket_details tm.manual_scan db v rt true).2
  let t2 := vulnReopenTicket tm db v reason rt
  let newTickets := saveFirst (matchReopenVuln v cutoff) t2 db.tickets
  let db1 := { db with tickets := newTickets }
  let tm1 := { tm with seen_ticket_ids := sadd t2.tid tm.seen_ticket_ids }
  if delta.any notifyDelta then (tm1, addNotification db1 t2) else (tm1, db1)

/-- The new ticket built by the create branch of
VulnTicketManager.open_ticket: identity fields and details from the scan
document, loc from the host document, OPENED event, and the immediate close
for the unknown owner.  Modelled from the spec where the TicketDoc defaults
are concerned: a freshly constructed ticket is open, not a false positive,
and has no events. -/
def vulnCreateTicket (tm : VulnTM) (db : DB) (v : VulnScan)
    (reason : String) : Ticket :=
  let base : Ticket :=
    { tid := db.nextId
      ip := v.ip
      port := v.port
      protocol := v.protocol
      source := v.source
      source_id := v.plugin_id
      owner := v.owner
      loc := none
      open_ := true
      false_positive := false
      fp_expiration := 0
      details := []
      time_opened := some v.time
      time_closed := none
      events := [] }
  let t1 := (generate_ticket_details tm.manual_scan db v base false).1
  let t2 :=
    match findOne (fun h => h.1 == v.ip) db.hosts with
    | some h => { t1 with loc := some h.2 }
    | none => t1
  let t3 := { t2 with events := t2.events ++
      [{ action := TicketAction.OPENED
         reason := reason
         reference := some v.vid
         time := v.time
         delta := []
         manual := tm.manual_scan }] }
  if t3.owner = UNKNOWN_OWNER then
    { t3 with
        events := t3.events ++
          [{ action := TicketAction.CLOSED
             reason := "No associated owner"
             reference := none
             time := v.time
             delta := []
             manual := tm.manual_scan }]
        open_ := false
        time_closed := tm.closing_time }
  else t3

/-- The branch of VulnTicketManager.open_ticket creating a new ticket:
insert it, mark seen, and the new-ticket notification check. -/
def vulnCreate (tm : VulnTM) (db : DB) (v : VulnScan) (reason : String) :
    VulnTM × DB :=
  let t4 := vulnCreateTicket tm db v reason
  let db1 := { db with tickets := db.tickets ++ [t4], nextId := db.nextId + 1 }
  let tm1 := { tm with seen_ticket_ids := sadd t4.tid tm.seen_ticket_ids }
  if newTicketNotify t4.details then (tm1, addNotification db1 t4)
  else (tm1, db1)

/-- Embeds VulnTicketManager.open_ticket.  now is the wall-clock time used by
util.utcnow() for the reopen cutoff. -/
def VulnTM.open_ticket (tm : VulnTM) (db : DB) (v : VulnScan)
    (reason : String) (now : Int) : VulnTM × DB :=
  let tm1 := { tm with closing_time := some (obsTime tm.closing_time v.time) }
  match findOne (matchOpenVuln v) db.tickets with
  | some prev => vulnVerify tm1 db v reason prev
  | none =>
    let cutoff := now + tm.reopen_delta
    match findOne (matchReopenVuln v cutoff) db.tickets with
    | some rt => vulnReopen tm1 db v reason cutoff rt
    | none => vulnCreate tm1 db v reason

/-- Modelled from the spec: the candidate filter of the close_tickets
pipeline (close_tickets_pl lives in cyhy/db/queries.py, outside the
sources).  Following the spec and the query spelled out in the close_tickets
comment, a candidate is an open ticket inside the scope (ip, port and
source_id sets, source name) whose id is not in the seen set. -/
def vulnCloseMatch (tm : VulnTM) (t : Ticket) : Bool :=
  tm.ips.contains t.ip && tm.ports.contains t.port &&
    tm.source_ids.contains t.source_id &&
    !(tm.seen_ticket_ids.contains t.tid) &&
    t.source == tm.source && t.open_

/-- An UNVERIFIED event as appended by the close paths. -/
def unverifiedEvent (reason : String) (ct : Int) (manual : Bool) : Event :=
  { action := TicketAction.UNVERIFIED
    reason := reason
    reference := none
    time := ct
    delta := []
    manual := manual }

/-- A CLOSED event as appended by the close paths. -/
def closedEvent (reason : String) (ct : Int) (manual : Bool) : Event :=
  { action := TicketAction.CLOSED
    reason := reason
    reference := none
    time := ct
    delta := []
    manual := manual }

/-- The body of the loop of VulnTicketManager.close_tickets for one
candidate ticket: false-positive expiration, then either an UNVERIFIED
event, or close with a CLOSED event. -/
def closeVulnTicket (manual : Bool) (ct : Int) (t : Ticket) : Ticket :=
  let t1 := check_fp_expiration manual t ct
  if t1.false_positive then
    { t1 with events := t1.events ++
        [unverifiedEvent "vulnerability not detected" ct manual] }
  else
    { t1 with
        open_ := false
        time_closed := some ct
        events := t1.events ++
          [closedEvent "vulnerability not detected" ct manual] }

/-- Embeds VulnTicketManager.close_tickets: the closing time is the tracked
one, defaulting to the wall clock, and every candidate ticket is closed or
marked UNVERIFIED. -/
def VulnTM.close_tickets (tm : VulnTM) (db : DB) (now : Int) : VulnTM × DB :=
  let ct := tm.closing_time.getD now
  let newTickets := db.tickets.map
    (fun t => if vulnCloseMatch tm t then closeVulnTicket tm.manual_scan ct t
              else t)
  ({ tm with closing_time := some ct }, { db with tickets := newTickets })

/-- One run feeding a list of findings through open_ticket. -/
def VulnTM.runFindings (tm : VulnTM) (db : DB)
    (l : List (VulnScan × String)) (now : Int) : VulnTM × DB :=
  l.foldl (fun s f => VulnTM.open_ticket s.1 s.2 f.1 f.2 now) (tm, db)

/-- A port scan document (the portscan argument of
IPPortTicketManager.open_ticket). -/
structure PortScan where
  pid : Nat
  ip : Nat
  port : Nat
  protocol : String
  source : String
  source_id : Nat
  name : String
  service : String
  owner : String
  time : Int
deriving DecidableEq, Repr

def PortScan.key (p : PortScan) : TKey :=
  ⟨p.ip, p.port, p.protocol, p.source, p.source_id⟩

/-- State of an IPPortTicketManager for one run.  seen_ip_port models the
defaultdict mapping each ip to the set of ports observed open, as the set of
its (ip, port) pairs. -/
structure IPPortTM where
  closing_time : Option Int
  ips : List Nat
  ports : List Nat
  protocols : List String
  reopen_delta : Int
  seen_ip_port : List (Nat × Nat)
deriving DecidableEq, Repr

/-- Embeds IPPortTicketManager.port_open. -/
def IPPortTM.port_open (tm : IPPortTM) (ip port : Nat) : IPPortTM :=
  if (ip, port) ∈ tm.seen_ip_port then tm
  else { tm with seen_ip_port := (ip, port) :: tm.seen_ip_port }

/-- The ips that appear as keys of the seen defaultdict. -/
def IPPortTM.seenKeys (tm : IPPortTM) : List Nat :=
  tm.seen_ip_port.map Prod.fst

def matchOpenPort (p : PortScan) (t : Ticket) : Bool :=
  t.open_ && t.key == p.key

def matchReopenPort (p : PortScan) (cutoff : Int) (t : Ticket) : Bool :=
  !t.open_ && t.key == p.key &&
    (match t.time_closed with
     | some tc => decide (cutoff < tc)
     | none => false)

/-- The ticket state saved by the verify branch of
IPPortTicketManager.open_ticket: false-positive expiration, then the
VERIFIED event (port tickets carry no details delta). -/
def portVerifyTicket (p : PortScan) (reason : String) (prev : Ticket) :
    Ticket :=
  let t1 := check_fp_expiration false prev p.time
  { t1 with events := t1.events ++ [verifiedEvent false reason p.pid p.time] }

/-- The ticket state saved by the reopen branch of
IPPortTicketManager.open_ticket. -/
def portReopenTicket (p : PortScan) (reason : String) (rt : Ticket) :
    Ticket :=
  { rt with
      events := rt.events ++
        [{ action := TicketAction.REOPENED
           reason := reason
           reference := some p.pid
           time := p.time
           delta := []
           manual := false }]
      time_closed := none
      open_ := true }

/-- The new ticket built by the create branch of
IPPortTicketManager.open_ticket: identity fields and the fixed-shape port
details, loc from the host document, OPENED event, and the immediate close
for the unknown owner.  Modelled from the spec where the TicketDoc defaults
are concerned: a freshly constructed ticket is open, not a false positive,
and has no events. -/
def portCreateTicket (tm : IPPortTM) (db : DB) (p : PortScan)
    (reason : String) : Ticket :=
  let t1 : Ticket :=
    { tid := db.nextId
      ip := p.ip
      port := p.port
      protocol := p.protocol
      source := p.source
      source_id := p.source_id
      owner := p.owner
      loc := none
      open_ := true
      false_positive := false
      fp_expiration := 0
      details :=
        [("cve", Val.vNull),
         ("cvss_base_score", Val.vNull),
         ("name", Val.vStr p.name),
         ("score_source", Val.vNull),
         ("service", Val.vStr p.service),
         ("severity", Val.vInt 0)]
      time_opened := some p.time
      time_closed := none
      events := [] }
  let t2 :=
    match findOne (fun h => h.1 == p.ip) db.hosts with
    | some h => { t1 with loc := some h.2 }
    | none => t1
  let t3 := { t2 with events := t2.events ++
      [{ action := TicketAction.OPENED
         reason := reason
         reference := some p.pid
         time := p.time
         delta := []
         manual := false }] }
  if t3.owner = UNKNOWN_OWNER then
    { t3 with
        events := t3.events ++
          [{ action := TicketAction.CLOSED
             reason := "No associated owner"
             reference := none
             time := p.time
             delta := []
             manual := false }]
        open_ := false
        time_closed := tm.closing_time }
  else t3

/-- Embeds IPPortTicketManager.open_ticket.  Note that none of its branches
touches the seen set, which is populated only through port_open; a new
ticket raises a notification unconditionally. -/
def IPPortTM.open_ticket (tm : IPPortTM) (db : DB) (p : PortScan)
    (reason : String) (now : Int) : IPPortTM × DB :=
  let tm1 := { tm with closing_time := some (obsTime tm.closing_time p.time) }
  match findOne (matchOpenPort p) db.tickets with
  | some prev =>
    let t2 := portVerifyTicket p reason prev
    let newTickets := saveFirst (matchOpenPort p) t2 db.tickets
    (tm1, { db with tickets := newTickets })
  | none =>
    let cutoff := now + tm.reopen_delta
    match findOne (matchReopenPort p cutoff) db.tickets with
    | some rt =>
      let t2 := portReopenTicket p reason rt
      let newTickets := saveFirst (matchReopenPort p cutoff) t2 db.tickets
      (tm1, { db with tickets := newTickets })
    | none =>
      let t4 := portCreateTicket tm1 db p reason
      let db1 :=
        { db with tickets := db.tickets ++ [t4], nextId := db.nextId + 1 }
      (tm1, addNotification db1 t4)

/-- Embeds IPPortTicketManager.__handle_ticket_port_closed:
false-positive expiration, then either an UNVERIFIED event or a close with a
CLOSED event, reason "port not open". -/
def handle_ticket_port_closed (ct : Int) (t : Ticket) : Ticket :=
  let t1 := check_fp_expiration false t ct
  if t1.false_positive then
    { t1 with events := t1.events ++ [unverifiedEvent "port not open" ct false] }
  else
    { t1 with
        open_ := false
        time_closed := some ct
        events := t1.events ++ [closedEvent "port not open" ct false] }

/-- The per-ticket action of the first pass of the full-sweep branch: every
open ticket of a scoped ip with no observed open port is handled, regardless
of port and protocol. -/
def fullSweepPass1 (tm : IPPortTM) (ct : Int) (t : Ticket) : Ticket :=
  if (tm.ips.filter (fun ip => !(tm.seenKeys.contains ip))).contains t.ip
      && t.open_
  then handle_ticket_port_closed ct t else t

/-- The per-ticket action of the second pass of the full-sweep branch. -/
def fullSweepPass2 (tm : IPPortTM) (ct : Int) (t : Ticket) : Ticket :=
  if tm.ips.contains t.ip && t.open_ && t.port != 0 &&
      tm.protocols.contains t.protocol &&
      !(tm.seen_ip_port.contains (t.ip, t.port))
  then handle_ticket_port_closed ct t else t

/-- The per-ticket action when not all ports were scanned. -/
def portClosePass (tm : IPPortTM) (ct : Int) (t : Ticket) : Ticket :=
  if tm.ips.contains t.ip && t.open_ && tm.ports.contains t.port &&
      tm.protocols.contains t.protocol &&
      !(tm.seen_ip_port.contains (t.ip, t.port))
  then handle_ticket_port_closed ct t else t

/-- Embeds IPPortTicketManager.close_tickets.  closingArg is the optional
closing_time argument; now is the wall clock.  When all 65535 ports were
scanned (the trigger compares only the count), every open ticket of a scoped
ip with no observed open port is handled first, regardless of port and
protocol; then, or otherwise, the tickets matching the scope whose
(ip, port) was not observed open are handled.  The second query runs
against the saved state of the first pass. -/
def IPPortTM.close_tickets (tm : IPPortTM) (db : DB) (closingArg : Option Int)
    (now : Int) : DB :=
  let ct := closingArg.getD now
  if tm.ports.length == MAX_PORTS_COUNT then
    let tickets1 := db.tickets.map (fullSweepPass1 tm ct)
    let tickets2 := tickets1.map (fullSweepPass2 tm ct)
    { db with tickets := tickets2 }
  else
    let newTickets := db.tickets.map (portClosePass tm ct)
    { db with tickets := newTickets }

/-- One run feeding a list of port findings through open_ticket. -/
def IPPortTM.runFindings (tm : IPPortTM) (db : DB)
    (l : List (PortScan × String)) (now : Int) : IPPortTM × DB :=
  l.foldl (fun s f => IPPortTM.open_ticket s.1 s.2 f.1 f.2 now) (tm, db)

/-- State of an IPTicketManager for one run. -/
structure IPTM where
  ips : List Nat
  seen_ips : List Nat
deriving DecidableEq, Repr

/-- The loop body of IPTicketManager.close_tickets for one ticket of a host
that was not up: false-positive expiration, then either an UNVERIFIED event
or a close with a CLOSED event, reason "host down". -/
def closeHostTicket (ct : Int) (t : Ticket) : Ticket :=
  let t1 := check_fp_expiration false t ct
  if t1.false_positive then
    { t1 with events := t1.events ++ [unverifiedEvent "host down" ct false] }
  else
    { t1 with
        open_ := false
        time_closed := some ct
        events := t1.events ++ [closedEvent "host down" ct false] }

/-- Embeds IPTicketManager.close_tickets: every open ticket whose ip is in
scope but was not seen up is closed or marked UNVERIFIED. -/
def IPTM.close_tickets (tm : IPTM) (db : DB) (closingArg : Option Int)
    (now : Int) : DB :=
  let ct := closingArg.getD now
  let notUp := tm.ips.filter (fun ip => !(tm.seen_ips.contains ip))
  let newTickets := db.tickets.map
    (fun t => if notUp.contains t.ip && t.open_ then closeHostTicket ct t
              else t)
  { db with tickets := newTickets }

/-! Infrastructure lemmas about the store model. -/

theorem findOne_eq_none {α : Type} {p : α → Bool} {l : List α}
    (h : findOne p l = none) : ∀ x ∈ l, p x = false := by
  induction l with
  | nil => intro x hx; cases hx
  | cons a l ih =>
    intro x hx
    by_cases hpa : p a
    · simp [findOne, hpa] at h
    · rcases List.mem_cons.mp hx with rfl | hxl
      · simpa using hpa
      · have hl : findOne p l = none := by simpa [findOne, hpa] using h
        exact ih hl x hxl

theorem findOne_prop {α : Type} {p : α → Bool} {l : List α} {x : α}
    (h : findOne p l = some x) : p x = true := by
  induction l with
  | nil => simp [findOne] at h
  | cons a l ih =>
    by_cases hpa : p a
    · simp [findOne, hpa] at h
      subst h; exact hpa
    · exact ih (by simpa [findOne, hpa] using h)

theorem findOne_mem {α : Type} {p : α → Bool} {l : List α} {x : α}
    (h : findOne p l = some x) : x ∈ l := by
  induction l with
  | nil => simp [findOne] at h
  | cons a l ih =>
    by_cases hpa : p a
    · simp [findOne, hpa] at h
      subst h; exact List.mem_cons_self a l
    · exact List.mem_cons_of_mem a (ih (by simpa [findOne, hpa] using h))

theorem countP_saveFirst {α : Type} (p q : α → Bool) (y x : α) (l : List α)
    (h : findOne p l = some x) :
    (saveFirst p y l).countP q + (if q x then 1 else 0)
      = l.countP q + (if q y then 1 else 0) := by
  induction l with
  | nil => simp [findOne] at h
  | cons a l ih =>
    by_cases hpa : p a
    · have hx : x = a := by simpa [findOne, hpa] using h.symm
      subst hx
      simp only [saveFirst, hpa, if_pos, List.countP_cons]
      omega
    · have h' : findOne p l = some x := by simpa [findOne, hpa] using h
      simp only [saveFirst, hpa, if_neg, ite_false, List.countP_cons, Bool.not_eq_true]
      have := ih h'
      omega

theorem findOne_saveFirst {α : Type} {p : α → Bool} {l : List α} {x : α}
    (y : α) (h : findOne p l = some x) (hy : p y = true) :
    findOne p (saveFirst p y l) = some y := by
  induction l with
  | nil => simp [findOne] at h
  | cons a l ih =>
    by_cases hpa : p a
    · simp [saveFirst, hpa, findOne, hy]
    · have h' : findOne p l = some x := by simpa [findOne, hpa] using h
      simp [saveFirst, hpa, findOne, ih h']

/-- Number of open tickets at a given identity key. -/
def openAt (k : TKey) (l : List Ticket) : Nat :=
  l.countP (fun t => t.open_ && t.key == k)

theorem matchOpenVuln_iff {v : VulnScan} {t : Ticket} :
    matchOpenVuln v t = true ↔ t.open_ = true ∧ t.key = v.key := by
  simp [matchOpenVuln]

theorem matchReopenVuln_parts {v : VulnScan} {c : Int} {t : Ticket}
    (h : matchReopenVuln v c t = true) : t.open_ = false ∧ t.key = v.key := by
  unfold matchReopenVuln at h
  simp only [Bool.and_eq_true, Bool.not_eq_true', beq_iff_eq] at h
  exact ⟨h.1.1, h.1.2⟩

theorem matchOpenPort_iff {p : PortScan} {t : Ticket} :
    matchOpenPort p t = true ↔ t.open_ = true ∧ t.key = p.key := by
  simp [matchOpenPort]

theorem matchReopenPort_parts {p : PortScan} {c : Int} {t : Ticket}
    (h : matchReopenPort p c t = true) : t.open_ = false ∧ t.key = p.key := by
  unfold matchReopenPort at h
  simp only [Bool.and_eq_true, Bool.not_eq_true', beq_iff_eq] at h
  exact ⟨h.1.1, h.1.2⟩

theorem check_fp_fields (m : Bool) (t : Ticket) (time : Int) :
    (check_fp_expiration m t time).open_ = t.open_
    ∧ (check_fp_expiration m t time).key = t.key
    ∧ (check_fp_expiration m t time).tid = t.tid
    ∧ (check_fp_expiration m t time).time_closed = t.time_closed
    ∧ (check_fp_expiration m t time).details = t.details
    ∧ (check_fp_expiration m t time).owner = t.owner := by
  unfold check_fp_expiration
  split <;> [split; skip] <;> simp [Ticket.key]

theorem gtd_fields (m : Bool) (db : DB) (v : VulnScan) (t : Ticket)
    (c : Bool) :
    (generate_ticket_details m db v t c).1.open_ = t.open_
    ∧ (generate_ticket_details m db v t c).1.key = t.key
    ∧ (generate_ticket_details m db v t c).1.tid = t.tid
    ∧ (generate_ticket_details m db v t c).1.time_closed = t.time_closed
    ∧ (generate_ticket_details m db v t c).1.false_positive = t.false_positive
    ∧ (generate_ticket_details m db v t c).1.fp_expiration = t.fp_expiration
    ∧ (generate_ticket_details m db v t c).1.owner = t.owner := by
  unfold generate_ticket_details
  dsimp only
  by_cases h1 : (if c = true then
      calculate_delta t.details (generate_details db v).toDict else []) = []
  · simp [h1, Ticket.key]
  · simp [h1, Ticket.key]

/-! Branch lemmas for open_ticket. -/

theorem open_ticket_verify_eq {tm : VulnTM} {db : DB} {v : VulnScan}
    {reason : String} {now : Int} {prev : Ticket}
    (h : findOne (matchOpenVuln v) db.tickets = some prev) :
    VulnTM.open_ticket tm db v reason now
      = vulnVerify
          { tm with closing_time := some (obsTime tm.closing_time v.time) }
          db v reason prev := by
  unfold VulnTM.open_ticket
  rw [h]

theorem open_ticket_reopen_eq {tm : VulnTM} {db : DB} {v : VulnScan}
    {reason : String} {now : Int} {rt : Ticket}
    (h1 : findOne (matchOpenVuln v) db.tickets = none)
    (h2 : findOne (matchReopenVuln v (now + tm.reopen_delta)) db.tickets
      = some rt) :
    VulnTM.open_ticket tm db v reason now
      = vulnReopen
          { tm with closing_time := some (obsTime tm.closing_time v.time) }
          db v reason (now + tm.reopen_delta) rt := by
  unfold VulnTM.open_ticket
  rw [h1]
  dsimp only
  rw [h2]

theorem open_ticket_create_eq {tm : VulnTM} {db : DB} {v : VulnScan}
    {reason : String} {now : Int}
    (h1 : findOne (matchOpenVuln v) db.tickets = none)
    (h2 : findOne (matchReopenVuln v (now + tm.reopen_delta)) db.tickets
      = none) :
    VulnTM.open_ticket tm db v reason now
      = vulnCreate
          { tm with closing_time := some (obsTime tm.closing_time v.time) }
          db v reason := by
  unfold VulnTM.open_ticket
  rw [h1]
  dsimp only
  rw [h2]

theorem vulnVerify_snd_tickets (tm : VulnTM) (db : DB) (v : VulnScan)
    (reason : String) (prev : Ticket) :
    (vulnVerify tm db v reason prev).2.tickets
      = saveFirst (matchOpenVuln v) (vulnVerifyTicket tm db v reason prev)
          db.tickets := by
  unfold vulnVerify
  dsimp only
  split <;> rfl

theorem vulnVerify_fst (tm : VulnTM) (db : DB) (v : VulnScan)
    (reason : String) (prev : Ticket) :
    (vulnVerify tm db v reason prev).1
      = { tm with seen_ticket_ids :=
                    sadd (vulnVerifyTicket tm db v reason prev).tid
                      tm.seen_ticket_ids } := by
  unfold vulnVerify
  dsimp only
  split <;> rfl

theorem vulnReopen_snd_tickets (tm : VulnTM) (db : DB) (v : VulnScan)
    (reason : String) (cutoff : Int) (rt : Ticket) :
    (vulnReopen tm db v reason cutoff rt).2.tickets
      = saveFirst (matchReopenVuln v cutoff)
          (vulnReopenTicket tm db v reason rt) db.tickets := by
  unfold vulnReopen
  dsimp only
  split <;> rfl

theorem vulnReopen_fst (tm : VulnTM) (db : DB) (v : VulnScan)
    (reason : String) (cutoff : Int) (rt : Ticket) :
    (vulnReopen tm db v reason cutoff rt).1
      = { tm with seen_ticket_ids :=
                    sadd (vulnReopenTicket tm db v reason rt).tid
                      tm.seen_ticket_ids } := by
  unfold vulnReopen
  dsimp only
  split <;> rfl

theorem vulnCreate_snd_tickets (tm : VulnTM) (db : DB) (v : VulnScan)
    (reason : String) :
    (vulnCreate tm db v reason).2.tickets
      = db.tickets ++ [vulnCreateTicket tm db v reason] := by
  unfold vulnCreate
  dsimp only
  split <;> rfl

theorem vulnCreate_fst (tm : VulnTM) (db : DB) (v : VulnScan)
    (reason : String) :
    (vulnCreate tm db v reason).1
      = { tm with seen_ticket_ids :=
                    sadd (vulnCreateTicket tm db v reason).tid
                      tm.seen_ticket_ids } := by
  unfold vulnCreate
  dsimp only
  split <;> rfl

theorem vulnVerifyTicket_fields (tm : VulnTM) (db : DB) (v : VulnScan)
    (reason : String) (prev : Ticket) :
    (vulnVerifyTicket tm db v reason prev).open_ = prev.open_
    ∧ (vulnVerifyTicket tm db v reason prev).key = prev.key
    ∧ (vulnVerifyTicket tm db v reason prev).tid = prev.tid
    ∧ (vulnVerifyTicket tm db v reason prev).time_closed
        = prev.time_closed
    ∧ (vulnVerifyTicket tm db v reason prev).owner = prev.owner := by
  refine ⟨?_, ?_, ?_, ?_, ?_⟩
  · show (check_fp_expiration tm.manual_scan
        (generate_ticket_details tm.manual_scan db v prev true).1
        v.time).open_ = prev.open_
    rw [(check_fp_fields _ _ _).1, (gtd_fields _ _ _ _ _).1]
  · show (check_fp_expiration tm.manual_scan
        (generate_ticket_details tm.manual_scan db v prev true).1
        v.time).key = prev.key
    rw [(check_fp_fields _ _ _).2.1, (gtd_fields _ _ _ _ _).2.1]
  · show (check_fp_expiration tm.manual_scan
        (generate_ticket_details tm.manual_scan db v prev true).1
        v.time).tid = prev.tid
    rw [(check_fp_fields _ _ _).2.2.1, (gtd_fields _ _ _ _ _).2.2.1]
  · show (check_fp_expiration tm.manual_scan
        (generate_ticket_details tm.manual_scan db v prev true).1
        v.time).time_closed = prev.time_closed
    rw [(check_fp_fields _ _ _).2.2.2.1, (gtd_fields _ _ _ _ _).2.2.2.1]
  · show (check_fp_expiration tm.manual_scan
        (generate_ticket_details tm.manual_scan db v prev true).1
        v.time).owner = prev.owner
    rw [(check_fp_fields _ _ _).2.2.2.2.2,
      (gtd_fields _ _ _ _ _).2.2.2.2.2.2]

theorem vulnReopenTicket_fields (tm : VulnTM) (db : DB) (v : VulnScan)
    (reason : String) (rt : Ticket) :
    (vulnReopenTicket tm db v reason rt).open_ = true
    ∧ (vulnReopenTicket tm db v reason rt).key = rt.key
    ∧ (vulnReopenTicket tm db v reason rt).tid = rt.tid
    ∧ (vulnReopenTicket tm db v reason rt).time_closed = none
    ∧ (vulnReopenTicket tm db v reason rt).false_positive
        = rt.false_positive
    ∧ (vulnReopenTicket tm db v reason rt).owner = rt.owner := by
  refine ⟨rfl, ?_, ?_, rfl, ?_, ?_⟩
  · show (generate_ticket_details tm.manual_scan db v rt true).1.key = rt.key
    exact (gtd_fields _ _ _ _ _).2.1
  · show (generate_ticket_details tm.manual_scan db v rt true).1.tid = rt.tid
    exact (gtd_fields _ _ _ _ _).2.2.1
  · show (generate_ticket_details tm.manual_scan db v rt true).1.false_positive
        = rt.false_positive
    exact (gtd_fields _ _ _ _ _).2.2.2.2.1
  · show (generate_ticket_details tm.manual_scan db v rt true).1.owner
        = rt.owner
    exact (gtd_fields _ _ _ _ _).2.2.2.2.2.2

theorem vulnCreateTicket_fields (tm : VulnTM) (db : DB) (v : VulnScan)
    (reason : String) :
    (vulnCreateTicket tm db v reason).key = v.key
    ∧ (vulnCreateTicket tm db v reason).tid = db.nextId := by
  unfold vulnCreateTicket
  dsimp only
  refine ⟨?_, ?_⟩ <;> (split <;> split <;> rfl)

theorem vuln_open_uniq (tm : VulnTM) (db : DB) (v : VulnScan)
    (reason : String) (now : Int) (k : TKey)
    (h : openAt k db.tickets ≤ 1) :
    openAt k ((VulnTM.open_ticket tm db v reason now).2.tickets) ≤ 1 := by
  cases hfo : findOne (matchOpenVuln v) db.tickets with
  | some prev =>
    rw [open_ticket_verify_eq hfo, vulnVerify_snd_tickets]
    have hprev := matchOpenVuln_iff.mp (findOne_prop hfo)
    have hf := vulnVerifyTicket_fields
      { tm with closing_time := some (obsTime tm.closing_time v.time) }
      db v reason prev
    have hcount := countP_saveFirst (matchOpenVuln v)
      (fun t => t.open_ && t.key == k)
      (vulnVerifyTicket
        { tm with closing_time := some (obsTime tm.closing_time v.time) }
        db v reason prev)
      prev db.tickets hfo
    simp only [hf.1, hf.2.1] at hcount
    unfold openAt at h ⊢
    omega
  | none =>
    have hzero : openAt v.key db.tickets = 0 := by
      unfold openAt
      rw [List.countP_eq_zero]
      intro t ht
      have := findOne_eq_none hfo t ht
      rw [matchOpenVuln] at this
      simpa using this
    cases hfr : findOne (matchReopenVuln v (now + tm.reopen_delta))
        db.tickets with
    | some rt =>
      rw [open_ticket_reopen_eq hfo hfr, vulnReopen_snd_tickets]
      have hrt := matchReopenVuln_parts (findOne_prop hfr)
      have hf := vulnReopenTicket_fields
        { tm with closing_time := some (obsTime tm.closing_time v.time) }
        db v reason rt
      have hcount := countP_saveFirst (matchReopenVuln v (now + tm.reopen_delta))
        (fun t => t.open_ && t.key == k)
        (vulnReopenTicket
          { tm with closing_time := some (obsTime tm.closing_time v.time) }
          db v reason rt)
        rt db.tickets hfr
      simp only [hf.1, hf.2.1, hrt.1, hrt.2] at hcount
      simp only [Bool.false_and, Bool.true_and, if_neg Bool.false_ne_true]
        at hcount
      unfold openAt at h hzero ⊢
      by_cases hk : v.key = k
      · subst hk
        simp at hcount
        omega
      · simp [hk] at hcount
        omega
    | none =>
      rw [open_ticket_create_eq hfo hfr, vulnCreate_snd_tickets]
      have hf := vulnCreateTicket_fields
        { tm with closing_time := some (obsTime tm.closing_time v.time) }
        db v reason
      unfold openAt at h hzero ⊢
      rw [List.countP_append]
      have hone : List.countP (fun t => t.open_ && t.key == k)
          [vulnCreateTicket
            { tm with closing_time := some (obsTime tm.closing_time v.time) }
            db v reason] ≤ 1 := by
        simp [List.countP_cons]
        split <;> omega
      by_cases hk : v.key = k
      · subst hk
        omega
      · have : List.countP (fun t => t.open_ && t.key == k)
            [vulnCreateTicket
              { tm with closing_time := some (obsTime tm.closing_time v.time) }
              db v reason] = 0 := by
          simp only [List.countP_cons, List.countP_nil]
          rw [hf.1]
          simp [hk]
        omega

theorem port_open_verify_eq {tm : IPPortTM} {db : DB} {p : PortScan}
    {reason : String} {now : Int} {prev : Ticket}
    (h : findOne (matchOpenPort p) db.tickets = some prev) :
    IPPortTM.open_ticket tm db p reason now
      = ({ tm with closing_time := some (obsTime tm.closing_time p.time) },
         { db with tickets := saveFirst (matchOpenPort p) (portVerifyTicket p reason prev) db.tickets }) := by
  unfold IPPortTM.open_ticket
  rw [h]

theorem port_open_reopen_eq {tm : IPPortTM} {db : DB} {p : PortScan}
    {reason : String} {now : Int} {rt : Ticket}
    (h1 : findOne (matchOpenPort p) db.tickets = none)
    (h2 : findOne (matchReopenPort p (now + tm.reopen_delta)) db.tickets
      = some rt) :
    IPPortTM.open_ticket tm db p reason now
      = ({ tm with closing_time := some (obsTime tm.closing_time p.time) },
         { db with tickets := saveFirst (matchReopenPort p (now + tm.reopen_delta)) (portReopenTicket p reason rt) db.tickets }) := by
  unfold IPPortTM.open_ticket
  rw [h1]
  dsimp only
  rw [h2]

theorem port_open_create_eq {tm : IPPortTM} {db : DB} {p : PortScan}
    {reason : String} {now : Int}
    (h1 : findOne (matchOpenPort p) db.tickets = none)
    (h2 : findOne (matchReopenPort p (now + tm.reopen_delta)) db.tickets
      = none) :
    IPPortTM.open_ticket tm db p reason now
      = ({ tm with closing_time := some (obsTime tm.closing_time p.time) },
         addNotification
           { db with
              tickets := db.tickets ++ [portCreateTicket { tm with closing_time := some (obsTime tm.closing_time p.time) } db p reason]
              nextId := db.nextId + 1 }
           (portCreateTicket { tm with closing_time := some (obsTime tm.closing_time p.time) } db p reason)) := by
  unfold IPPortTM.open_ticket
  rw [h1]
  dsimp only
  rw [h2]

theorem portVerifyTicket_fields (p : PortScan) (reason : String)
    (prev : Ticket) :
    (portVerifyTicket p reason prev).open_ = prev.open_
    ∧ (portVerifyTicket p reason prev).key = prev.key
    ∧ (portVerifyTicket p reason prev).tid = prev.tid
    ∧ (portVerifyTicket p reason prev).time_closed = prev.time_closed := by
  refine ⟨?_, ?_, ?_, ?_⟩
  · exact (check_fp_fields false prev p.time).1
  · exact (check_fp_fields false prev p.time).2.1
  · exact (check_fp_fields false prev p.time).2.2.1
  · exact (check_fp_fields false prev p.time).2.2.2.1

theorem portCreateTicket_fields (tm : IPPortTM) (db : DB) (p : PortScan)
    (reason : String) :
    (portCreateTicket tm db p reason).key = p.key
    ∧ (portCreateTicket tm db p reason).tid = db.nextId := by
  unfold portCreateTicket
  dsimp only
  refine ⟨?_, ?_⟩ <;> (split <;> split <;> rfl)

theorem port_open_uniq (tm : IPPortTM) (db : DB) (p : PortScan)
    (reason : String) (now : Int) (k : TKey)
    (h : openAt k db.tickets ≤ 1) :
    openAt k ((IPPortTM.open_ticket tm db p reason now).2.tickets) ≤ 1 := by
  cases hfo : findOne (matchOpenPort p) db.tickets with
  | some prev =>
    rw [port_open_verify_eq hfo]
    dsimp only
    have hprev := matchOpenPort_iff.mp (findOne_prop hfo)
    have hf := portVerifyTicket_fields p reason prev
    have hcount := countP_saveFirst (matchOpenPort p)
      (fun t => t.open_ && t.key == k)
      (portVerifyTicket p reason prev) prev db.tickets hfo
    simp only [hf.1, hf.2.1] at hcount
    unfold openAt at h ⊢
    omega
  | none =>
    have hzero : openAt p.key db.tickets = 0 := by
      unfold openAt
      rw [List.countP_eq_zero]
      intro t ht
      have := findOne_eq_none hfo t ht
      rw [matchOpenPort] at this
      simpa using this
    cases hfr : findOne (matchReopenPort p (now + tm.reopen_delta))
        db.tickets with
    | some rt =>
      rw [port_open_reopen_eq hfo hfr]
      dsimp only
      have hrt := matchReopenPort_parts (findOne_prop hfr)
      have hcount := countP_saveFirst (matchReopenPort p (now + tm.reopen_delta))
        (fun t => t.open_ && t.key == k)
        (portReopenTicket p reason rt) rt db.tickets hfr
      have hopen : (portReopenTicket p reason rt).open_ = true := rfl
      have hkey : (portReopenTicket p reason rt).key = rt.key := rfl
      simp only [hopen, hkey, hrt.1, hrt.2] at hcount
      simp only [Bool.false_and, Bool.true_and, if_neg Bool.false_ne_true]
        at hcount
      unfold openAt at h hzero ⊢
      by_cases hk : p.key = k
      · subst hk
        simp at hcount
        omega
      · simp [hk] at hcount
        omega
    | none =>
      rw [port_open_create_eq hfo hfr]
      dsimp only [addNotification]
      have hf := portCreateTicket_fields
        { tm with closing_time := some (obsTime tm.closing_time p.time) }
        db p reason
      unfold openAt at h hzero ⊢
      show List.countP _ (db.tickets ++ [_]) ≤ 1
      rw [List.countP_append]
      by_cases hk : p.key = k
      · subst hk
        have hone : List.countP (fun t => t.open_ && t.key == p.key)
            [portCreateTicket
              { tm with closing_time := some (obsTime tm.closing_time p.time) }
              db p reason] ≤ 1 := by
          simp only [List.countP_cons, List.countP_nil]
          split <;> omega
        omega
      · have : List.countP (fun t => t.open_ && t.key == k)
            [portCreateTicket
              { tm with closing_time := some (obsTime tm.closing_time p.time) }
              db p reason] = 0 := by
          simp only [List.countP_cons, List.countP_nil]
          rw [hf.1]
          simp [hk]
        omega

/-- C1: Uniqueness of open tickets: for every identity key, if at most one
ticket with open set exists at that key before a call to open_ticket of
either VulnTicketManager or IPPortTicketManager, then at most one open
ticket exists at that key afterwards; the reopen and create branches only
run when the lookup for an open ticket at the key found nothing, and the
verify branch never opens a second ticket. -/
theorem open_ticket_preserves_open_uniqueness :
    (∀ (tm : VulnTM) (db : DB) (v : VulnScan) (reason : String) (now : Int)
        (k : TKey), openAt k db.tickets ≤ 1 →
      openAt k ((VulnTM.open_ticket tm db v reason now).2.tickets) ≤ 1)
    ∧ (∀ (tm : IPPortTM) (db : DB) (p : PortScan) (reason : String)
        (now : Int) (k : TKey), openAt k db.tickets ≤ 1 →
      openAt k ((IPPortTM.open_ticket tm db p reason now).2.tickets) ≤ 1) :=
  ⟨fun tm db v reason now k h => vuln_open_uniq tm db v reason now k h,
   fun tm db p reason now k h => port_open_uniq tm db p reason now k h⟩

/-! Concrete sample data used to instantiate the theorems. -/

def sampleKey : TKey := ⟨1, 80, "tcp", "nessus", 5⟩

def sampleDB : DB :=
  { tickets := [], notifications := [], cveDocs := [], kevIds := [],
    hosts := [], nextId := 0 }

def sampleVuln : VulnScan :=
  { vid := 11, ip := 1, port := 80, protocol := "tcp", source := "nessus",
    plugin_id := 5, plugin_name := "plug", severity := 3,
    cvss_base_score := 5, cvss3_base_score := none, cve := none,
    vpr_score := none, owner := "own", time := 3 }

def sampleVulnTM : VulnTM :=
  { closing_time := none, ips := [1], manual_scan := false, ports := [0, 80],
    reopen_delta := -90, seen_ticket_ids := [], source := "nessus",
    source_ids := [5] }

def samplePort : PortScan :=
  { pid := 21, ip := 1, port := 80, protocol := "tcp", source := "nmap",
    source_id := 0, name := "open port", service := "http", owner := "own",
    time := 3 }

def samplePortTM : IPPortTM :=
  { closing_time := none, ips := [1], ports := [80], protocols := ["tcp"],
    reopen_delta := -90, seen_ip_port := [] }

theorem open_ticket_preserves_open_uniqueness_witness :
    openAt sampleKey sampleDB.tickets ≤ 1
    ∧ openAt sampleKey
        ((VulnTM.open_ticket sampleVulnTM sampleDB sampleVuln "scan" 10).2.tickets) ≤ 1
    ∧ openAt sampleKey
        ((IPPortTM.open_ticket samplePortTM sampleDB samplePort "scan" 10).2.tickets) ≤ 1 :=
  ⟨by decide,
   open_ticket_preserves_open_uniqueness.1 sampleVulnTM sampleDB sampleVuln
     "scan" 10 sampleKey (by decide),
   open_ticket_preserves_open_uniqueness.2 samplePortTM sampleDB samplePort
     "scan" 10 sampleKey (by decide)⟩

/-! C7: severity re-derivation thresholds. -/

/-- The v2 mapping as the spec words it: exactly 10 maps to 4, at least 7.0
to 3, at least 4.0 to 2, anything lower to 1. -/
def specSeverityV2 (s : ℚ) : Int :=
  if s = 10 then 4 else if 7 ≤ s then 3 else if 4 ≤ s then 2 else 1

/-- The v3 mapping as the spec words it: at least 9.0 maps to 4, at least
7.0 to 3, at least 4.0 to 2, anything lower to 1. -/
def specSeverityV3 (s : ℚ) : Int :=
  if 9 ≤ s then 4 else if 7 ≤ s then 3 else if 4 ≤ s then 2 else 1

theorem severityRecompute_fields (d : VDetails) :
    (severityRecompute d).score_source = d.score_source
    ∧ (severityRecompute d).cvss_version = d.cvss_version
    ∧ (severityRecompute d).cvss_base_score = d.cvss_base_score := by
  unfold severityRecompute
  dsimp only
  split_ifs <;> exact ⟨rfl, rfl, rfl⟩

theorem severityRecompute_sev (d : VDetails) (h : d.score_source ≠ "nvd") :
    (severityRecompute d).severity
      = if d.cvss_version = "2" then specSeverityV2 d.cvss_base_score
        else if d.cvss_version = "3" then specSeverityV3 d.cvss_base_score
        else d.severity := by
  unfold severityRecompute specSeverityV2 specSeverityV3
  dsimp only
  rw [if_pos h]
  split_ifs <;> rfl

theorem nvdOverride_version (db : DB) (v : VulnScan)
    (h : (nvdOverride db v).score_source ≠ "nvd") :
    (nvdOverride db v).cvss_version = "2"
    ∨ (nvdOverride db v).cvss_version = "3" := by
  unfold nvdOverride at h ⊢
  dsimp only at h ⊢
  cases hc : v.cve with
  | none =>
    by_cases hs : v.cvss3_base_score.isSome <;> simp [hc, hs]
  | some c =>
    cases hf : findOne (fun cd => cd.cveId == c) db.cveDocs with
    | some cdoc =>
      exfalso
      by_cases hk : c ∈ db.kevIds <;> simp [hc, hf, hk] at h
    | none =>
      by_cases hk : c ∈ db.kevIds <;>
        by_cases hs : v.cvss3_base_score.isSome <;> simp [hc, hf, hk, hs]

/-- Example vulnerability with a CVSS v3 score of 0.0. -/
def vulnV3Zero : VulnScan :=
  { vid := 31, ip := 1, port := 80, protocol := "tcp", source := "nessus",
    plugin_id := 6, plugin_name := "z", severity := 4, cvss_base_score := 0,
    cvss3_base_score := some 0, cve := none, vpr_score := none,
    owner := "own", time := 1 }

/-- Example vulnerability with a CVSS v2 score of 9.9. -/
def vulnV2NineNine : VulnScan :=
  { vid := 32, ip := 1, port := 80, protocol := "tcp", source := "nessus",
    plugin_id := 7, plugin_name := "z", severity := 4,
    cvss_base_score := mkRat 99 10, cvss3_base_score := none, cve := none,
    vpr_score := none, owner := "own", time := 1 }

/-- C7: whenever the resolved score_source of the details of a vulnerability
ticket is not nvd, the stored severity equals the fixed mapping applied to
the numeric CVSS score (v2: exactly 10 to 4, at least 7.0 to 3, at least 4.0
to 2, lower to 1; v3: at least 9.0 to 4, at least 7.0 to 3, at least 4.0 to
2, lower to 1); in particular a v3 score of 0.0 maps to severity 1 and a v2
score of 9.9 maps to severity 3. -/
theorem severity_rederivation_thresholds :
    (∀ (db : DB) (v : VulnScan),
      (generate_details db v).score_source ≠ "nvd" →
      ((generate_details db v).cvss_version = "2"
        ∨ (generate_details db v).cvss_version = "3")
      ∧ dget (generate_details db v).toDict "severity"
          = Val.vInt
              (if (generate_details db v).cvss_version = "2"
               then specSeverityV2 (generate_details db v).cvss_base_score
               else specSeverityV3 (generate_details db v).cvss_base_score))
    ∧ dget (generate_details sampleDB vulnV3Zero).toDict "severity"
        = Val.vInt 1
    ∧ dget (generate_details sampleDB vulnV2NineNine).toDict "severity"
        = Val.vInt 3 := by
  refine ⟨?_, by decide, by decide⟩
  intro db v h
  have hss : (nvdOverride db v).score_source ≠ "nvd" := by
    intro hc
    apply h
    show (severityRecompute (nvdOverride db v)).score_source = "nvd"
    rw [(severityRecompute_fields _).1]
    exact hc
  have hver := nvdOverride_version db v hss
  have hsev := severityRecompute_sev (nvdOverride db v) hss
  have hfields := severityRecompute_fields (nvdOverride db v)
  have hdg : ∀ d : VDetails, dget d.toDict "severity" = Val.vInt d.severity :=
    fun d => rfl
  constructor
  · show (severityRecompute (nvdOverride db v)).cvss_version = "2"
        ∨ (severityRecompute (nvdOverride db v)).cvss_version = "3"
    rw [hfields.2.1]
    exact hver
  · show dget (generate_details db v).toDict "severity" = _
    rw [hdg]
    simp only [generate_details]
    rw [hsev, hfields.2.1, hfields.2.2]
    rcases hver with h2 | h3
    · simp [h2]
    · simp [h3]

theorem severity_rederivation_thresholds_witness :
    (generate_details sampleDB sampleVuln).score_source ≠ "nvd"
    ∧ (((generate_details sampleDB sampleVuln).cvss_version = "2"
        ∨ (generate_details sampleDB sampleVuln).cvss_version = "3")
      ∧ dget (generate_details sampleDB sampleVuln).toDict "severity"
          = Val.vInt
              (if (generate_details sampleDB sampleVuln).cvss_version = "2"
               then specSeverityV2
                  (generate_details sampleDB sampleVuln).cvss_base_score
               else specSeverityV3
                  (generate_details sampleDB sampleVuln).cvss_base_score)) :=
  ⟨by decide,
   severity_rederivation_thresholds.1 sampleDB sampleVuln (by decide)⟩

/-! C2: scope-based closing and the closing-time default. -/

theorem open_ticket_fst_closing (tm : VulnTM) (db : DB) (v : VulnScan)
    (reason : String) (now : Int) :
    ((VulnTM.open_ticket tm db v reason now).1).closing_time
      = some (obsTime tm.closing_time v.time) := by
  cases hfo : findOne (matchOpenVuln v) db.tickets with
  | some prev => rw [open_ticket_verify_eq hfo, vulnVerify_fst]
  | none =>
    cases hfr : findOne (matchReopenVuln v (now + tm.reopen_delta))
        db.tickets with
    | some rt => rw [open_ticket_reopen_eq hfo hfr, vulnReopen_fst]
    | none => rw [open_ticket_create_eq hfo hfr, vulnCreate_fst]

theorem runFindings_closing (l : List (VulnScan × String)) (tm : VulnTM)
    (db : DB) (now : Int) :
    ((VulnTM.runFindings tm db l now).1).closing_time
      = l.foldl (fun c f => some (obsTime c f.1.time)) tm.closing_time := by
  induction l generalizing tm db with
  | nil => rfl
  | cons f fs ih =>
    show ((VulnTM.runFindings (VulnTM.open_ticket tm db f.1 f.2 now).1
        (VulnTM.open_ticket tm db f.1 f.2 now).2 fs now).1).closing_time = _
    rw [ih, List.foldl_cons, open_ticket_fst_closing]

theorem foldl_obsTime_spec (l : List Int) :
    ∀ c : Int,
      ∃ m, l.foldl (fun c t => some (obsTime c t)) (some c) = some m
        ∧ (m = c ∨ m ∈ l) ∧ c ≤ m ∧ ∀ t ∈ l, t ≤ m := by
  induction l with
  | nil => exact fun c => ⟨c, rfl, Or.inl rfl, le_refl c, by simp⟩
  | cons a l ih =>
    intro c
    obtain ⟨m, hm, hmem, hle, hall⟩ := ih (obsTime (some c) a)
    have hoa : obsTime (some c) a = if c < a then a else c := rfl
    refine ⟨m, hm, ?_, ?_, ?_⟩
    · rcases hmem with heq | hmem
      · rw [heq, hoa]
        split_ifs with hca
        · exact Or.inr (List.mem_cons_self a l)
        · exact Or.inl rfl
      · exact Or.inr (List.mem_cons_of_mem a hmem)
    · have hc : c ≤ obsTime (some c) a := by
        rw [hoa]; split_ifs with hca <;> omega
      exact le_trans hc hle
    · intro t ht
      rcases List.mem_cons.mp ht with rfl | htl
      · have hta : t ≤ obsTime (some c) t := by
          rw [hoa]; split_ifs with hca <;> omega
        exact le_trans hta hle
      · exact hall t htl

theorem foldl_pairs_times (l : List (VulnScan × String)) (c : Option Int) :
    l.foldl (fun c f => some (obsTime c f.1.time)) c
      = (l.map (fun f => f.1.time)).foldl (fun c t => some (obsTime c t)) c := by
  induction l generalizing c with
  | nil => rfl
  | cons f fs ih => simp [List.foldl_cons, ih]

theorem vuln_close_get (tm : VulnTM) (db : DB) (now : Int) (i : Nat)
    (t : Ticket) (hget : db.tickets[i]? = some t)
    (hmatch : vulnCloseMatch tm t = true) :
    ((VulnTM.close_tickets tm db now).2.tickets)[i]?
      = some (closeVulnTicket tm.manual_scan (tm.closing_time.getD now) t) := by
  unfold VulnTM.close_tickets
  dsimp only
  rw [List.getElem?_map, hget]
  simp [hmatch]

theorem closeVulnTicket_nonfp (m : Bool) (ct : Int) (t : Ticket)
    (hfp : t.false_positive = false) :
    closeVulnTicket m ct t
      = { t with open_ := false
                 time_closed := some ct
                 events := t.events ++
                   [closedEvent "vulnerability not detected" ct m] } := by
  unfold closeVulnTicket check_fp_expiration
  simp [hfp]

theorem port_close_get_notall (tm : IPPortTM) (db : DB) (carg : Option Int)
    (now : Int) (i : Nat) (t : Ticket) (hget : db.tickets[i]? = some t)
    (hlen : tm.ports.length ≠ MAX_PORTS_COUNT)
    (hcand : (tm.ips.contains t.ip && t.open_ && tm.ports.contains t.port
      && tm.protocols.contains t.protocol
      && !(tm.seen_ip_port.contains (t.ip, t.port))) = true) :
    ((IPPortTM.close_tickets tm db carg now).tickets)[i]?
      = some (handle_ticket_port_closed (carg.getD now) t) := by
  unfold IPPortTM.close_tickets
  dsimp only
  rw [if_neg (by simpa using hlen)]
  dsimp only
  rw [List.getElem?_map, hget, Option.map_some']
  show some (portClosePass tm (carg.getD now) t) = _
  unfold portClosePass
  rw [if_pos hcand]

theorem handle_port_nonfp (ct : Int) (t : Ticket)
    (hfp : t.false_positive = false) :
    handle_ticket_port_closed ct t
      = { t with open_ := false
                 time_closed := some ct
                 events := t.events ++ [closedEvent "port not open" ct false] } := by
  unfold handle_ticket_port_closed check_fp_expiration
  simp [hfp]

/-- C2 (amended): the amended scope-based closing property.  For
VulnTicketManager the closing time is the latest finding time observed via
open_ticket this run (wall clock if no findings were observed), and
close_tickets closes every non-false-positive candidate at it.  For
IPPortTicketManager, close_tickets instead uses its own closing_time
argument, defaulting to the wall clock even when findings were observed. -/
theorem scope_close_and_closing_time :
    (∀ (tm : VulnTM) (db : DB) (l : List (VulnScan × String)) (now : Int),
      tm.closing_time = none → l ≠ [] →
      ∃ m, (VulnTM.runFindings tm db l now).1.closing_time = some m
        ∧ m ∈ l.map (fun f => f.1.time)
        ∧ ∀ u ∈ l.map (fun f => f.1.time), u ≤ m)
    ∧ (∀ (tm : VulnTM) (db : DB) (now : Int) (i : Nat) (t : Ticket),
      db.tickets[i]? = some t → vulnCloseMatch tm t = true →
      t.false_positive = false →
      ((VulnTM.close_tickets tm db now).2.tickets)[i]?
        = some { t with open_ := false
                        time_closed := some (tm.closing_time.getD now)
                        events := t.events ++ [closedEvent "vulnerability not detected" (tm.closing_time.getD now) tm.manual_scan] })
    ∧ (∀ (tm : IPPortTM) (db : DB) (carg : Option Int) (now : Int) (i : Nat)
        (t : Ticket),
      db.tickets[i]? = some t →
      tm.ports.length ≠ MAX_PORTS_COUNT →
      (tm.ips.contains t.ip && t.open_ && tm.ports.contains t.port
        && tm.protocols.contains t.protocol
        && !(tm.seen_ip_port.contains (t.ip, t.port))) = true →
      t.false_positive = false →
      ((IPPortTM.close_tickets tm db carg now).tickets)[i]?
        = some { t with open_ := false
                        time_closed := some (carg.getD now)
                        events := t.events ++ [closedEvent "port not open" (carg.getD now) false] }) := by
  refine ⟨?_, ?_, ?_⟩
  · intro tm db l now hct hne
    rw [runFindings_closing, hct]
    rw [foldl_pairs_times]
    cases hl : l.map (fun f => f.1.time) with
    | nil => exact absurd (List.map_eq_nil_iff.mp hl) hne
    | cons u us =>
      obtain ⟨m, hm, hmem, hle, hall⟩ := foldl_obsTime_spec us u
      refine ⟨m, hm, ?_, ?_⟩
      · rcases hmem with rfl | hmem
        · exact List.mem_cons_self m us
        · exact List.mem_cons_of_mem u hmem
      · intro w hw
        rcases List.mem_cons.mp hw with rfl | hwl
        · exact hle
        · exact hall w hwl
  · intro tm db now i t hget hmatch hfp
    rw [vuln_close_get tm db now i t hget hmatch,
      closeVulnTicket_nonfp _ _ _ hfp]
  · intro tm db carg now i t hget hlen hcand hfp
    rw [port_close_get_notall tm db carg now i t hget hlen hcand,
      handle_port_nonfp _ _ hfp]

/-- An open ticket on port 80 inside the scope of samplePortTM. -/
def cxTicket80 : Ticket :=
  { tid := 100, ip := 1, port := 80, protocol := "tcp", source := "nmap",
    source_id := 0, owner := "own", loc := none, open_ := true,
    false_positive := false, fp_expiration := 0, details := [],
    time_opened := some 0, time_closed := none, events := [] }

def cxDB2 : DB :=
  { tickets := [cxTicket80], notifications := [], cveDocs := [], kevIds := [],
    hosts := [], nextId := 101 }

/-- A port finding on a different port, observed at time 5. -/
def cxPort443 : PortScan :=
  { pid := 41, ip := 1, port := 443, protocol := "tcp", source := "nmap",
    source_id := 0, name := "open port", service := "https", owner := "own",
    time := 5 }

/-- C2 (counterexample): IPPortTicketManager observes a finding at time 5
via open_ticket (the tracked closing time becomes 5), yet close_tickets
invoked without a closing-time argument at wall-clock time 10 closes the
in-scope, unseen port-80 ticket with time_closed 10, not with the latest
finding time 5 that the claim prescribes. -/
theorem ipport_closing_time_counterexample :
    ((IPPortTM.open_ticket samplePortTM cxDB2 cxPort443 "r" 0).1).closing_time
      = some 5
    ∧ (((IPPortTM.close_tickets
          (IPPortTM.open_ticket samplePortTM cxDB2 cxPort443 "r" 0).1
          (IPPortTM.open_ticket samplePortTM cxDB2 cxPort443 "r" 0).2
          none 10).tickets)[0]?).map (fun t => (t.open_, t.time_closed))
        = some (false, some 10)
    ∧ (10 : Int) ≠ 5 := by
  refine ⟨by decide, by decide, by decide⟩

theorem scope_close_and_closing_time_witness :
    (sampleVulnTM.closing_time = none ∧ ([(sampleVuln, "r")] ≠ []))
    ∧ (∃ m, (VulnTM.runFindings sampleVulnTM sampleDB [(sampleVuln, "r")]
          10).1.closing_time = some m
        ∧ m ∈ [(sampleVuln, "r")].map (fun f => f.1.time)
        ∧ ∀ u ∈ [(sampleVuln, "r")].map (fun f => f.1.time), u ≤ m) :=
  ⟨⟨by decide, by decide⟩,
   scope_close_and_closing_time.1 sampleVulnTM sampleDB [(sampleVuln, "r")]
     10 (by decide) (by decide)⟩

/-! C3: the order of the false-positive expiration flip within the verify
branch. -/

/-- The CHANGED event recording a details delta. -/
def detailsChangedEvent (m : Bool) (v : VulnScan) (delta : List DeltaEntry) :
    Event :=
  { action := TicketAction.CHANGED
    reason := "details changed"
    reference := some v.vid
    time := v.time
    delta := delta
    manual := m }

theorem gtd_events_changed (m : Bool) (db : DB) (v : VulnScan) (t : Ticket)
    (h : calculate_delta t.details (generate_details db v).toDict ≠ []) :
    (generate_ticket_details m db v t true).1
      = { t with details := (generate_details db v).toDict
                 events := t.events ++ [detailsChangedEvent m v (calculate_delta t.details (generate_details db v).toDict)] } := by
  unfold generate_ticket_details detailsChangedEvent
  dsimp only
  simp only [if_pos (rfl : (true : Bool) = true), if_true]
  rw [if_pos h]

theorem check_fp_expired (m : Bool) (t : Ticket) (time : Int)
    (hfp : t.false_positive = true) (hexp : t.fp_expiration < time) :
    check_fp_expiration m t time
      = { t with false_positive := false
                 events := t.events ++ [fpExpiredEvent time m] } := by
  unfold check_fp_expiration
  rw [hfp]
  simp [hexp]

/-- C3 (amended): the false-positive expiration flip of one open_ticket
call does precede the VERIFIED event in both managers, but in
VulnTicketManager.open_ticket the details regeneration runs first: on a
false-positive ticket whose expiration has passed and whose details
changed, the saved events are the details-delta CHANGED, then the CHANGED
flipping false_positive, then VERIFIED — the flip does not precede the
details-delta CHANGED event.  In IPPortTicketManager.open_ticket, which
computes no details delta, the expiration check runs before the VERIFIED
event exactly as claimed, appending the flip CHANGED immediately before
VERIFIED. -/
theorem fp_expiry_order_amended :
    (∀ (tm : VulnTM) (db : DB) (v : VulnScan) (reason : String) (now : Int)
        (prev : Ticket),
      findOne (matchOpenVuln v) db.tickets = some prev →
      prev.false_positive = true →
      prev.fp_expiration < v.time →
      calculate_delta prev.details (generate_details db v).toDict ≠ [] →
      (VulnTM.open_ticket tm db v reason now).2.tickets
        = saveFirst (matchOpenVuln v)
            (vulnVerifyTicket { tm with closing_time := some (obsTime tm.closing_time v.time) } db v reason prev)
            db.tickets
      ∧ (vulnVerifyTicket { tm with closing_time := some (obsTime tm.closing_time v.time) } db v reason prev).events
        = prev.events ++
            [detailsChangedEvent tm.manual_scan v (calculate_delta prev.details (generate_details db v).toDict),
             fpExpiredEvent v.time tm.manual_scan,
             verifiedEvent tm.manual_scan reason v.vid v.time])
    ∧ (∀ (tm : IPPortTM) (db : DB) (p : PortScan) (reason : String)
        (now : Int) (prev : Ticket),
      findOne (matchOpenPort p) db.tickets = some prev →
      prev.false_positive = true →
      prev.fp_expiration < p.time →
      (IPPortTM.open_ticket tm db p reason now).2.tickets
        = saveFirst (matchOpenPort p) (portVerifyTicket p reason prev)
            db.tickets
      ∧ (portVerifyTicket p reason prev).events
        = prev.events ++
            [fpExpiredEvent p.time false,
             verifiedEvent false reason p.pid p.time]) := by
  constructor
  · intro tm db v reason now prev hfo hfp hexp hdelta
    constructor
    · rw [open_ticket_verify_eq hfo, vulnVerify_snd_tickets]
    · unfold vulnVerifyTicket
      dsimp only
      rw [gtd_events_changed _ _ _ _ hdelta]
      rw [check_fp_expired _ _ _ (by exact hfp) (by exact hexp)]
      simp [List.append_assoc]
  · intro tm db p reason now prev hfo hfp hexp
    constructor
    · rw [port_open_verify_eq hfo]
    · unfold portVerifyTicket
      rw [check_fp_expired false prev p.time hfp hexp]
      simp [List.append_assoc]

/-- A false-positive open ticket whose expiration date 0 has passed, with
empty details so that the regenerated details produce a delta. -/
def cxTicketC3 : Ticket :=
  { tid := 50, ip := 1, port := 80, protocol := "tcp", source := "nessus",
    source_id := 5, owner := "own", loc := none, open_ := true,
    false_positive := true, fp_expiration := 0, details := [],
    time_opened := some 0, time_closed := none, events := [] }

def cxDB3 : DB :=
  { tickets := [cxTicketC3], notifications := [], cveDocs := [], kevIds := [],
    hosts := [], nextId := 51 }

/-- C3 (counterexample): on a false-positive, expired ticket with changed
details, the saved events are details CHANGED (index 0), the CHANGED
flipping false_positive (index 1), then VERIFIED; the claim that the
false-positive flip is appended before the details-delta CHANGED event
fails, since index 1 is not before index 0. -/
theorem fp_expiry_order_counterexample :
    (((VulnTM.open_ticket sampleVulnTM cxDB3 sampleVuln "r" 10).2.tickets)[0]?).map
        (fun t => t.events.map
          (fun e => (e.action, e.delta.any (fun d => d.key == "false_positive"))))
      = some [(TicketAction.CHANGED, false), (TicketAction.CHANGED, true),
              (TicketAction.VERIFIED, false)]
    ∧ (((VulnTM.open_ticket sampleVulnTM cxDB3 sampleVuln "r" 10).2.tickets)[0]?).map
        (fun t =>
          (t.events.findIdx
            (fun e => e.delta.any (fun d => d.key == "false_positive")),
           t.events.findIdx (fun e => e.action == TicketAction.CHANGED)))
      = some (1, 0)
    ∧ ¬ ((1 : Nat) < 0) := by
  refine ⟨by decide, by decide, by decide⟩

/-- A false-positive open port ticket whose expiration date 0 has passed,
matched by the port finding cxPortC3 at time 5. -/
def cxTicketC3p : Ticket :=
  { tid := 55, ip := 1, port := 80, protocol := "tcp", source := "nmap",
    source_id := 0, owner := "own", loc := none, open_ := true,
    false_positive := true, fp_expiration := 0, details := [],
    time_opened := some 0, time_closed := none, events := [] }

def cxDB3p : DB :=
  { tickets := [cxTicketC3p], notifications := [], cveDocs := [],
    kevIds := [], hosts := [], nextId := 56 }

def cxPortC3 : PortScan :=
  { pid := 43, ip := 1, port := 80, protocol := "tcp", source := "nmap",
    source_id := 0, name := "open port", service := "http", owner := "own",
    time := 5 }

theorem fp_expiry_order_amended_witness :
    (findOne (matchOpenVuln sampleVuln) cxDB3.tickets = some cxTicketC3
      ∧ cxTicketC3.false_positive = true
      ∧ cxTicketC3.fp_expiration < sampleVuln.time
      ∧ calculate_delta cxTicketC3.details
          (generate_details cxDB3 sampleVuln).toDict ≠ [])
    ∧ ((VulnTM.open_ticket sampleVulnTM cxDB3 sampleVuln "r" 10).2.tickets
        = saveFirst (matchOpenVuln sampleVuln)
            (vulnVerifyTicket { sampleVulnTM with closing_time := some (obsTime sampleVulnTM.closing_time sampleVuln.time) } cxDB3 sampleVuln "r" cxTicketC3)
            cxDB3.tickets
      ∧ (vulnVerifyTicket { sampleVulnTM with closing_time := some (obsTime sampleVulnTM.closing_time sampleVuln.time) } cxDB3 sampleVuln "r" cxTicketC3).events
        = cxTicketC3.events ++
            [detailsChangedEvent sampleVulnTM.manual_scan sampleVuln (calculate_delta cxTicketC3.details (generate_details cxDB3 sampleVuln).toDict),
             fpExpiredEvent sampleVuln.time sampleVulnTM.manual_scan,
             verifiedEvent sampleVulnTM.manual_scan "r" sampleVuln.vid sampleVuln.time])
    ∧ (findOne (matchOpenPort cxPortC3) cxDB3p.tickets = some cxTicketC3p
      ∧ cxTicketC3p.false_positive = true
      ∧ cxTicketC3p.fp_expiration < cxPortC3.time)
    ∧ ((IPPortTM.open_ticket samplePortTM cxDB3p cxPortC3 "r" 0).2.tickets
        = saveFirst (matchOpenPort cxPortC3)
            (portVerifyTicket cxPortC3 "r" cxTicketC3p) cxDB3p.tickets
      ∧ (portVerifyTicket cxPortC3 "r" cxTicketC3p).events
        = cxTicketC3p.events ++
            [fpExpiredEvent cxPortC3.time false,
             verifiedEvent false "r" cxPortC3.pid cxPortC3.time]) :=
  ⟨⟨by decide, by decide, by decide, by decide⟩,
   fp_expiry_order_amended.1 sampleVulnTM cxDB3 sampleVuln "r" 10 cxTicketC3
     (by decide) (by decide) (by decide) (by decide),
   ⟨by decide, by decide, by decide⟩,
   fp_expiry_order_amended.2 samplePortTM cxDB3p cxPortC3 "r" 0 cxTicketC3p
     (by decide) (by decide) (by decide)⟩

/-! C4: notification gating on verify and reopen. -/

/-- C4 (amended): after a VERIFIED resolution the notification is created if
and only if the saved ticket is not a false positive (after any expiration
flip) and the details delta contains a severity crossing from below 3 to 3
or above or a kev flip from False to True; after a REOPENED resolution the
same delta test applies but without the false-positive guard; in every case
at most one notification is created; a 3 to 4 severity change and a kev True
to False change never fire. -/
theorem notification_gating_amended :
    (∀ (tm : VulnTM) (db : DB) (v : VulnScan) (reason : String) (now : Int)
        (prev : Ticket),
      findOne (matchOpenVuln v) db.tickets = some prev →
      (VulnTM.open_ticket tm db v reason now).2.notifications
        = db.notifications ++
            (if !(vulnVerifyTicket { tm with closing_time := some (obsTime tm.closing_time v.time) } db v reason prev).false_positive
                && ((generate_ticket_details tm.manual_scan db v prev true).2).any notifyDelta
             then [⟨prev.tid, prev.owner, []⟩] else []))
    ∧ (∀ (tm : VulnTM) (db : DB) (v : VulnScan) (reason : String) (now : Int)
        (rt : Ticket),
      findOne (matchOpenVuln v) db.tickets = none →
      findOne (matchReopenVuln v (now + tm.reopen_delta)) db.tickets
        = some rt →
      (VulnTM.open_ticket tm db v reason now).2.notifications
        = db.notifications ++
            (if ((generate_ticket_details tm.manual_scan db v rt true).2).any notifyDelta
             then [⟨rt.tid, rt.owner, []⟩] else []))
    ∧ notifyDelta ⟨"severity", Val.vInt 2, Val.vInt 3⟩ = true
    ∧ notifyDelta ⟨"severity", Val.vInt 3, Val.vInt 4⟩ = false
    ∧ notifyDelta ⟨"kev", Val.vBool false, Val.vBool true⟩ = true
    ∧ notifyDelta ⟨"kev", Val.vBool true, Val.vBool false⟩ = false := by
  refine ⟨?_, ?_, by decide, by decide, by decide, by decide⟩
  · intro tm db v reason now prev hfo
    rw [open_ticket_verify_eq hfo]
    unfold vulnVerify
    dsimp only
    have hf := vulnVerifyTicket_fields
      { tm with closing_time := some (obsTime tm.closing_time v.time) }
      db v reason prev
    split
    · next h =>
      show _ ++ [(⟨_, _, _⟩ : Notification)] = _ ++ _
      rw [hf.2.2.1, hf.2.2.2.2]
    · next h =>
      exact (List.append_nil _).symm
  · intro tm db v reason now rt hfo hfr
    rw [open_ticket_reopen_eq hfo hfr]
    unfold vulnReopen
    dsimp only
    have hf := vulnReopenTicket_fields
      { tm with closing_time := some (obsTime tm.closing_time v.time) }
      db v reason rt
    split
    · next h =>
      show _ ++ [(⟨_, _, _⟩ : Notification)] = _ ++ _
      rw [hf.2.2.1, hf.2.2.2.2.2]
    · next h =>
      exact (List.append_nil _).symm

/-- The reopen-candidate for C4: a closed false-positive ticket whose stored
details carry severity 2 while the incoming finding re-derives severity 3. -/
def cxTicketC4 : Ticket :=
  { tid := 60, ip := 1, port := 80, protocol := "tcp", source := "nessus",
    source_id := 5, owner := "own", loc := none, open_ := false,
    false_positive := true, fp_expiration := 100,
    details :=
      [("cve", Val.vNull),
       ("cvss_base_score", Val.vRat (mkRat 15 2)),
       ("cvss_version", Val.vStr "2"),
       ("kev", Val.vBool false),
       ("name", Val.vStr "plug"),
       ("score_source", Val.vStr "nessus"),
       ("severity", Val.vInt 2),
       ("vpr_score", Val.vNull)],
    time_opened := some 0, time_closed := some 9, events := [] }

def cxDB4 : DB :=
  { tickets := [cxTicketC4], notifications := [], cveDocs := [], kevIds := [],
    hosts := [], nextId := 61 }

/-- A v2 finding with CVSS 7.5, re-derived to severity 3. -/
def vulnC4 : VulnScan :=
  { vid := 61, ip := 1, port := 80, protocol := "tcp", source := "nessus",
    plugin_id := 5, plugin_name := "plug", severity := 2,
    cvss_base_score := mkRat 15 2, cvss3_base_score := none, cve := none,
    vpr_score := none, owner := "own", time := 12 }

/-- C4 (counterexample): reopening a closed false-positive ticket whose
severity delta crosses from 2 to 3 creates a notification even though the
ticket is a false positive, contradicting the only-if direction of the
claim. -/
theorem reopen_fp_notification_counterexample :
    ((VulnTM.open_ticket sampleVulnTM cxDB4 vulnC4 "r" 10).2.notifications).length
      = 1
    ∧ (((VulnTM.open_ticket sampleVulnTM cxDB4 vulnC4 "r" 10).2.tickets)[0]?).map
        (fun t => (t.false_positive, t.open_)) = some (true, true) := by
  refine ⟨by decide, by decide⟩

theorem notification_gating_amended_witness :
    (findOne (matchOpenVuln sampleVuln) cxDB3.tickets = some cxTicketC3)
    ∧ (VulnTM.open_ticket sampleVulnTM cxDB3 sampleVuln "r" 10).2.notifications
        = cxDB3.notifications ++
            (if !(vulnVerifyTicket { sampleVulnTM with closing_time := some (obsTime sampleVulnTM.closing_time sampleVuln.time) } cxDB3 sampleVuln "r" cxTicketC3).false_positive
                && ((generate_ticket_details sampleVulnTM.manual_scan cxDB3 sampleVuln cxTicketC3 true).2).any notifyDelta
             then [⟨cxTicketC3.tid, cxTicketC3.owner, []⟩] else []) :=
  ⟨by decide,
   notification_gating_amended.1 sampleVulnTM cxDB3 sampleVuln "r" 10
     cxTicketC3 (by decide)⟩

/-! C5: re-verification with unchanged details. -/

theorem calculate_delta_self (d : Dict) : calculate_delta d d = [] := by
  unfold calculate_delta deltaAt
  simp

theorem check_fp_nonfp (m : Bool) (t : Ticket) (time : Int)
    (hfp : t.false_positive = false) :
    check_fp_expiration m t time = t := by
  unfold check_fp_expiration
  simp [hfp]

theorem vulnVerifyTicket_nodelta (tm : VulnTM) (db : DB) (v : VulnScan)
    (reason : String) (prev : Ticket)
    (hfp : prev.false_positive = false)
    (hdet : calculate_delta prev.details (generate_details db v).toDict
      = []) :
    vulnVerifyTicket tm db v reason prev
      = { prev with details := (generate_details db v).toDict
                    events := prev.events ++ [verifiedEvent tm.manual_scan reason v.vid v.time] } := by
  unfold vulnVerifyTicket generate_ticket_details
  dsimp only
  simp only [if_pos (rfl : (true : Bool) = true), if_true]
  rw [if_neg (not_not_intro hdet)]
  rw [check_fp_nonfp tm.manual_scan
    { prev with details := (generate_details db v).toDict } v.time hfp]

theorem open_ticket_db_fields (tm : VulnTM) (db : DB) (v : VulnScan)
    (reason : String) (now : Int) :
    ((VulnTM.open_ticket tm db v reason now).2).cveDocs = db.cveDocs
    ∧ ((VulnTM.open_ticket tm db v reason now).2).kevIds = db.kevIds := by
  cases hfo : findOne (matchOpenVuln v) db.tickets with
  | some prev =>
    rw [open_ticket_verify_eq hfo]
    unfold vulnVerify
    dsimp only
    split <;> exact ⟨rfl, rfl⟩
  | none =>
    cases hfr : findOne (matchReopenVuln v (now + tm.reopen_delta))
        db.tickets with
    | some rt =>
      rw [open_ticket_reopen_eq hfo hfr]
      unfold vulnReopen
      dsimp only
      split <;> exact ⟨rfl, rfl⟩
    | none =>
      rw [open_ticket_create_eq hfo hfr]
      unfold vulnCreate
      dsimp only
      split <;> exact ⟨rfl, rfl⟩

theorem open_ticket_fst_manual (tm : VulnTM) (db : DB) (v : VulnScan)
    (reason : String) (now : Int) :
    ((VulnTM.open_ticket tm db v reason now).1).manual_scan
      = tm.manual_scan := by
  cases hfo : findOne (matchOpenVuln v) db.tickets with
  | some prev => rw [open_ticket_verify_eq hfo, vulnVerify_fst]
  | none =>
    cases hfr : findOne (matchReopenVuln v (now + tm.reopen_delta))
        db.tickets with
    | some rt => rw [open_ticket_reopen_eq hfo hfr, vulnReopen_fst]
    | none => rw [open_ticket_create_eq hfo hfr, vulnCreate_fst]

theorem generate_details_congr (db db' : DB) (v : VulnScan)
    (h1 : db'.cveDocs = db.cveDocs) (h2 : db'.kevIds = db.kevIds) :
    generate_details db' v = generate_details db v := by
  unfold generate_details nvdOverride
  rw [h1, h2]

theorem verify_nodelta_tickets (tm : VulnTM) (db : DB) (v : VulnScan)
    (reason : String) (now : Int) (prev : Ticket)
    (hfo : findOne (matchOpenVuln v) db.tickets = some prev)
    (hfp : prev.false_positive = false)
    (hdet : prev.details = (generate_details db v).toDict) :
    (VulnTM.open_ticket tm db v reason now).2.tickets
      = saveFirst (matchOpenVuln v)
          { prev with details := (generate_details db v).toDict
                      events := prev.events ++ [verifiedEvent tm.manual_scan reason v.vid v.time] }
          db.tickets := by
  have hδ : calculate_delta prev.details (generate_details db v).toDict
      = [] := by
    rw [hdet]
    exact calculate_delta_self _
  rw [open_ticket_verify_eq hfo, vulnVerify_snd_tickets,
    vulnVerifyTicket_nodelta _ _ _ _ _ hfp hδ]

/-- C5 (amended): when a finding with unchanged details is observed twice in
one run, each call re-verifies the open ticket and appends exactly one
VERIFIED event and no CHANGED event; the seen mark does not suppress the
second call, so after two calls the ticket carries two VERIFIED events. -/
theorem reverify_twice_amended (tm : VulnTM) (db : DB) (v : VulnScan)
    (reason : String) (now now2 : Int) (prev : Ticket)
    (hfo : findOne (matchOpenVuln v) db.tickets = some prev)
    (hfp : prev.false_positive = false)
    (hdet : prev.details = (generate_details db v).toDict) :
    (VulnTM.open_ticket tm db v reason now).2.tickets
      = saveFirst (matchOpenVuln v)
          { prev with details := (generate_details db v).toDict
                      events := prev.events ++ [verifiedEvent tm.manual_scan reason v.vid v.time] }
          db.tickets
    ∧ findOne (matchOpenVuln v)
        ((VulnTM.open_ticket (VulnTM.open_ticket tm db v reason now).1
          (VulnTM.open_ticket tm db v reason now).2 v reason now2).2.tickets)
      = some { prev with details := (generate_details db v).toDict
                         events := prev.events ++ [verifiedEvent tm.manual_scan reason v.vid v.time, verifiedEvent tm.manual_scan reason v.vid v.time] } := by
  have hprev := matchOpenVuln_iff.mp (findOne_prop hfo)
  have h1 := verify_nodelta_tickets tm db v reason now prev hfo hfp hdet
  refine ⟨h1, ?_⟩
  have hpT1 : matchOpenVuln v
      ({ prev with details := (generate_details db v).toDict
                   events := prev.events ++ [verifiedEvent tm.manual_scan reason v.vid v.time] } : Ticket) = true := by
    apply matchOpenVuln_iff.mpr
    exact ⟨hprev.1, hprev.2⟩
  have hfo2 : findOne (matchOpenVuln v)
      ((VulnTM.open_ticket tm db v reason now).2.tickets)
      = some { prev with details := (generate_details db v).toDict
                         events := prev.events ++ [verifiedEvent tm.manual_scan reason v.vid v.time] } := by
    rw [h1]
    exact findOne_saveFirst _ hfo hpT1
  have hdbf := open_ticket_db_fields tm db v reason now
  have hgen : generate_details ((VulnTM.open_ticket tm db v reason now).2) v
      = generate_details db v :=
    generate_details_congr db _ v hdbf.1 hdbf.2
  have h2 := verify_nodelta_tickets (VulnTM.open_ticket tm db v reason now).1
    ((VulnTM.open_ticket tm db v reason now).2) v reason now2
    { prev with details := (generate_details db v).toDict
                events := prev.events ++ [verifiedEvent tm.manual_scan reason v.vid v.time] }
    hfo2 hfp (by rw [hgen])
  rw [h2]
  have hman := open_ticket_fst_manual tm db v reason now
  rw [hgen, hman]
  have hpT2 : matchOpenVuln v
      ({ prev with details := (generate_details db v).toDict
                   events := (prev.events ++ [verifiedEvent tm.manual_scan reason v.vid v.time]) ++ [verifiedEvent tm.manual_scan reason v.vid v.time] } : Ticket) = true := by
    apply matchOpenVuln_iff.mpr
    exact ⟨hprev.1, hprev.2⟩
  rw [findOne_saveFirst _ hfo2 hpT2]
  simp [Ticket.mk.injEq, List.append_assoc]

/-- An open matching ticket whose details already equal the regenerated
details, so re-verification produces no delta. -/
def cxTicketC5 : Ticket :=
  { tid := 70, ip := 1, port := 80, protocol := "tcp", source := "nessus",
    source_id := 5, owner := "own", loc := none, open_ := true,
    false_positive := false, fp_expiration := 0,
    details := (generate_details sampleDB sampleVuln).toDict,
    time_opened := some 0, time_closed := none, events := [] }

def cxDB5 : DB :=
  { tickets := [cxTicketC5], notifications := [], cveDocs := [], kevIds := [],
    hosts := [], nextId := 71 }

/-- C5 (counterexample): observing the same finding twice in one run with
unchanged details leaves the ticket with two VERIFIED events (and no CHANGED
event), not with exactly one: open_ticket never consults the seen set, so
the second call appends a second VERIFIED event. -/
theorem double_verify_counterexample :
    (((VulnTM.open_ticket
        (VulnTM.open_ticket sampleVulnTM cxDB5 sampleVuln "r" 10).1
        (VulnTM.open_ticket sampleVulnTM cxDB5 sampleVuln "r" 10).2
        sampleVuln "r" 10).2.tickets)[0]?).map
        (fun t =>
          (t.events.countP (fun e => e.action == TicketAction.VERIFIED),
           t.events.countP (fun e => e.action == TicketAction.CHANGED)))
      = some (2, 0)
    ∧ (2 : Nat) ≠ 1 := by
  refine ⟨by decide, by decide⟩

theorem reverify_twice_amended_witness :
    (findOne (matchOpenVuln sampleVuln) cxDB5.tickets = some cxTicketC5
      ∧ cxTicketC5.false_positive = false
      ∧ cxTicketC5.details = (generate_details cxDB5 sampleVuln).toDict)
    ∧ ((VulnTM.open_ticket sampleVulnTM cxDB5 sampleVuln "r" 10).2.tickets
        = saveFirst (matchOpenVuln sampleVuln)
            { cxTicketC5 with details := (generate_details cxDB5 sampleVuln).toDict
                              events := cxTicketC5.events ++ [verifiedEvent sampleVulnTM.manual_scan "r" sampleVuln.vid sampleVuln.time] }
            cxDB5.tickets
      ∧ findOne (matchOpenVuln sampleVuln)
          ((VulnTM.open_ticket
            (VulnTM.open_ticket sampleVulnTM cxDB5 sampleVuln "r" 10).1
            (VulnTM.open_ticket sampleVulnTM cxDB5 sampleVuln "r" 10).2
            sampleVuln "r" 10).2.tickets)
        = some { cxTicketC5 with details := (generate_details cxDB5 sampleVuln).toDict
                                 events := cxTicketC5.events ++ [verifiedEvent sampleVulnTM.manual_scan "r" sampleVuln.vid sampleVuln.time, verifiedEvent sampleVulnTM.manual_scan "r" sampleVuln.vid sampleVuln.time] }) :=
  ⟨⟨by decide, by decide, by decide⟩,
   reverify_twice_amended sampleVulnTM cxDB5 sampleVuln "r" 10 10 cxTicketC5
     (by decide) (by decide) (by decide)⟩

/-! C6: the false-positive carve-out in the close paths. -/

theorem check_fp_future (m : Bool) (t : Ticket) (ct : Int)
    (hfp : t.false_positive = true) (hexp : ¬ t.fp_expiration < ct) :
    check_fp_expiration m t ct = t := by
  unfold check_fp_expiration
  simp [hfp, hexp]

theorem closeVulnTicket_fp (m : Bool) (ct : Int) (t : Ticket)
    (hfp : t.false_positive = true) (hexp : ¬ t.fp_expiration < ct) :
    closeVulnTicket m ct t
      = { t with events := t.events ++
            [unverifiedEvent "vulnerability not detected" ct m] } := by
  unfold closeVulnTicket
  rw [check_fp_future m t ct hfp hexp]
  simp [hfp]

theorem handle_port_fp (ct : Int) (t : Ticket)
    (hfp : t.false_positive = true) (hexp : ¬ t.fp_expiration < ct) :
    handle_ticket_port_closed ct t
      = { t with events := t.events ++
            [unverifiedEvent "port not open" ct false] } := by
  unfold handle_ticket_port_closed
  rw [check_fp_future false t ct hfp hexp]
  simp [hfp]

theorem closeHost_fp (ct : Int) (t : Ticket)
    (hfp : t.false_positive = true) (hexp : ¬ t.fp_expiration < ct) :
    closeHostTicket ct t
      = { t with events := t.events ++
            [unverifiedEvent "host down" ct false] } := by
  unfold closeHostTicket
  rw [check_fp_future false t ct hfp hexp]
  simp [hfp]

theorem host_close_get (tm : IPTM) (db : DB) (carg : Option Int) (now : Int)
    (i : Nat) (t : Ticket) (hget : db.tickets[i]? = some t)
    (hip : t.ip ∈ tm.ips) (hns : t.ip ∉ tm.seen_ips)
    (hopen : t.open_ = true) :
    ((IPTM.close_tickets tm db carg now).tickets)[i]?
      = some (closeHostTicket (carg.getD now) t) := by
  unfold IPTM.close_tickets
  dsimp only
  rw [List.getElem?_map, hget, Option.map_some']
  have hc : ((tm.ips.filter (fun ip => !(tm.seen_ips.contains ip))).contains
      t.ip && t.open_) = true := by
    rw [hopen, Bool.and_true]
    simp [List.mem_filter, hip, hns]
  rw [if_pos hc]

/-- C6 (amended): an open false-positive ticket whose expiration date is in
the future at the closing time is never closed: each handling pass leaves its
open flag and time_closed unchanged and appends exactly one UNVERIFIED event
instead of a CLOSED event, in VulnTicketManager.close_tickets, in the
non-full-sweep branch of IPPortTicketManager.close_tickets, and in
IPTicketManager.close_tickets.  In the full-sweep branch of
IPPortTicketManager.close_tickets such a ticket on a scoped ip with no
observed open ports can be handled twice in one call and then receives two
UNVERIFIED events (see the counterexample); it is still never closed. -/
theorem fp_carveout_amended :
    (∀ (tm : VulnTM) (db : DB) (now : Int) (i : Nat) (t : Ticket),
      db.tickets[i]? = some t → vulnCloseMatch tm t = true →
      t.false_positive = true →
      tm.closing_time.getD now < t.fp_expiration →
      ((VulnTM.close_tickets tm db now).2.tickets)[i]?
        = some { t with events := t.events ++ [unverifiedEvent "vulnerability not detected" (tm.closing_time.getD now) tm.manual_scan] })
    ∧ (∀ (tm : IPPortTM) (db : DB) (carg : Option Int) (now : Int) (i : Nat)
        (t : Ticket),
      db.tickets[i]? = some t →
      tm.ports.length ≠ MAX_PORTS_COUNT →
      (tm.ips.contains t.ip && t.open_ && tm.ports.contains t.port
        && tm.protocols.contains t.protocol
        && !(tm.seen_ip_port.contains (t.ip, t.port))) = true →
      t.false_positive = true →
      carg.getD now < t.fp_expiration →
      ((IPPortTM.close_tickets tm db carg now).tickets)[i]?
        = some { t with events := t.events ++ [unverifiedEvent "port not open" (carg.getD now) false] })
    ∧ (∀ (tm : IPTM) (db : DB) (carg : Option Int) (now : Int) (i : Nat)
        (t : Ticket),
      db.tickets[i]? = some t → t.ip ∈ tm.ips → t.ip ∉ tm.seen_ips →
      t.open_ = true → t.false_positive = true →
      carg.getD now < t.fp_expiration →
      ((IPTM.close_tickets tm db carg now).tickets)[i]?
        = some { t with events := t.events ++ [unverifiedEvent "host down" (carg.getD now) false] }) := by
  refine ⟨?_, ?_, ?_⟩
  · intro tm db now i t hget hmatch hfp hexp
    rw [vuln_close_get tm db now i t hget hmatch,
      closeVulnTicket_fp _ _ _ hfp (by omega)]
  · intro tm db carg now i t hget hlen hcand hfp hexp
    rw [port_close_get_notall tm db carg now i t hget hlen hcand,
      handle_port_fp _ _ hfp (by omega)]
  · intro tm db carg now i t hget hip hns hopen hfp hexp
    rw [host_close_get tm db carg now i t hget hip hns hopen,
      closeHost_fp _ _ hfp (by omega)]

theorem ipport_close_full_get (tm : IPPortTM) (db : DB) (carg : Option Int)
    (now : Int) (i : Nat) (t : Ticket)
    (hlen : (tm.ports.length == MAX_PORTS_COUNT) = true)
    (hget : db.tickets[i]? = some t) :
    ((IPPortTM.close_tickets tm db carg now).tickets)[i]?
      = some (fullSweepPass2 tm (carg.getD now)
          (fullSweepPass1 tm (carg.getD now) t)) := by
  unfold IPPortTM.close_tickets
  dsimp only
  rw [if_pos hlen]
  dsimp only
  rw [List.getElem?_map, List.getElem?_map, hget, Option.map_some',
    Option.map_some']

/-- A port manager that scanned all 65535 ports and saw nothing open. -/
def tmFull : IPPortTM :=
  { closing_time := none, ips := [1], ports := List.replicate 65535 0,
    protocols := ["tcp"], reopen_delta := -90, seen_ip_port := [] }

/-- An open false-positive ticket, expiration in the future, nonzero port,
protocol inside the scope. -/
def cxTicketC6 : Ticket :=
  { tid := 80, ip := 1, port := 80, protocol := "tcp", source := "nmap",
    source_id := 0, owner := "own", loc := none, open_ := true,
    false_positive := true, fp_expiration := 100, details := [],
    time_opened := some 0, time_closed := none, events := [] }

def cxDB6 : DB :=
  { tickets := [cxTicketC6], notifications := [], cveDocs := [], kevIds := [],
    hosts := [], nextId := 81 }

/-- C6 (counterexample): in the full-sweep branch of
IPPortTicketManager.close_tickets, a false-positive ticket on a scoped ip
with no observed open ports is handled in both passes and receives two
UNVERIFIED events in one call, not exactly one; the ticket does stay open
with time_closed unchanged. -/
theorem fp_carveout_counterexample :
    (((IPPortTM.close_tickets tmFull cxDB6 none 10).tickets)[0]?).map
        (fun t => (t.open_, t.time_closed,
          t.events.countP (fun e => e.action == TicketAction.UNVERIFIED)))
      = some (true, none, 2)
    ∧ (2 : Nat) ≠ 1 := by
  constructor
  · have hl : (tmFull.ports.length == MAX_PORTS_COUNT) = true := by
      rw [show tmFull.ports = List.replicate 65535 0 from rfl,
        List.length_replicate]
      rfl
    rw [ipport_close_full_get tmFull cxDB6 none 10 0 cxTicketC6 hl (by decide)]
    decide
  · decide

theorem fp_carveout_amended_witness :
    (cxDB3.tickets[0]? = some cxTicketC3
      ∧ vulnCloseMatch sampleVulnTM cxTicketC3 = true
      ∧ cxTicketC3.false_positive = true
      ∧ sampleVulnTM.closing_time.getD (-5) < cxTicketC3.fp_expiration)
    ∧ ((VulnTM.close_tickets sampleVulnTM cxDB3 (-5)).2.tickets)[0]?
        = some { cxTicketC3 with events := cxTicketC3.events ++ [unverifiedEvent "vulnerability not detected" (sampleVulnTM.closing_time.getD (-5)) sampleVulnTM.manual_scan] } :=
  ⟨⟨by decide, by decide, by decide, by decide⟩,
   fp_carveout_amended.1 sampleVulnTM cxDB3 (-5) 0 cxTicketC3 (by decide)
     (by decide) (by decide) (by decide)⟩

/-! C9: mark-seen on observation. -/

/-- The id of the ticket that open_ticket resolves a finding to: the open
match, else the reopen candidate, else the id of the inserted ticket. -/
def resolvedVulnId (tm : VulnTM) (db : DB) (v : VulnScan) (now : Int) : Nat :=
  match findOne (matchOpenVuln v) db.tickets with
  | some t => t.tid
  | none =>
    match findOne (matchReopenVuln v (now + tm.reopen_delta)) db.tickets with
    | some t => t.tid
    | none => db.nextId

theorem open_ticket_marks_seen (tm : VulnTM) (db : DB) (v : VulnScan)
    (reason : String) (now : Int) :
    ((VulnTM.open_ticket tm db v reason now).1).seen_ticket_ids
      = sadd (resolvedVulnId tm db v now) tm.seen_ticket_ids := by
  unfold resolvedVulnId
  cases hfo : findOne (matchOpenVuln v) db.tickets with
  | some prev =>
    rw [open_ticket_verify_eq hfo, vulnVerify_fst]
    dsimp only
    congr 1
    exact (vulnVerifyTicket_fields _ _ _ _ _).2.2.1
  | none =>
    cases hfr : findOne (matchReopenVuln v (now + tm.reopen_delta))
        db.tickets with
    | some rt =>
      rw [open_ticket_reopen_eq hfo hfr, vulnReopen_fst]
      dsimp only
      congr 1
      exact (vulnReopenTicket_fields _ _ _ _ _).2.2.1
    | none =>
      rw [open_ticket_create_eq hfo hfr, vulnCreate_fst]
      dsimp only
      congr 1
      exact (vulnCreateTicket_fields _ _ _ _).2

theorem vuln_close_skips_seen (tm : VulnTM) (db : DB) (now : Int) (i : Nat)
    (t : Ticket) (hget : db.tickets[i]? = some t)
    (hseen : t.tid ∈ tm.seen_ticket_ids) :
    ((VulnTM.close_tickets tm db now).2.tickets)[i]? = some t := by
  unfold VulnTM.close_tickets
  dsimp only
  rw [List.getElem?_map, hget, Option.map_some']
  have hc : vulnCloseMatch tm t = false := by
    unfold vulnCloseMatch
    have hmem : tm.seen_ticket_ids.contains t.tid = true := by
      simpa using hseen
    rw [hmem]
    simp
  rw [if_neg (by rw [hc]; exact Bool.false_ne_true)]

theorem port_open_ticket_seen (tm : IPPortTM) (db : DB) (p : PortScan)
    (reason : String) (now : Int) :
    ((IPPortTM.open_ticket tm db p reason now).1).seen_ip_port
      = tm.seen_ip_port := by
  cases hfo : findOne (matchOpenPort p) db.tickets with
  | some prev => rw [port_open_verify_eq hfo]
  | none =>
    cases hfr : findOne (matchReopenPort p (now + tm.reopen_delta))
        db.tickets with
    | some rt => rw [port_open_reopen_eq hfo hfr]
    | none => rw [port_open_create_eq hfo hfr]

theorem port_close_skips_seen (tm : IPPortTM) (db : DB) (carg : Option Int)
    (now : Int) (i : Nat) (t : Ticket) (hget : db.tickets[i]? = some t)
    (hseen : (t.ip, t.port) ∈ tm.seen_ip_port) :
    ((IPPortTM.close_tickets tm db carg now).tickets)[i]? = some t := by
  have hkey : t.ip ∈ tm.seenKeys := List.mem_map_of_mem Prod.fst hseen
  have hpair : tm.seen_ip_port.contains (t.ip, t.port) = true := by
    simpa using hseen
  unfold IPPortTM.close_tickets
  dsimp only
  split
  · rw [List.getElem?_map, List.getElem?_map, hget, Option.map_some',
      Option.map_some']
    have h1 : fullSweepPass1 tm (carg.getD now) t = t := by
      unfold fullSweepPass1
      have h4 : tm.seenKeys.contains t.ip = true := by simpa using hkey
      have hf : ((tm.ips.filter
          (fun ip => !(tm.seenKeys.contains ip))).contains t.ip) = false := by
        simp [List.mem_filter, h4]
        exact fun _ => hkey
      have hcond : ((tm.ips.filter
            (fun ip => !(tm.seenKeys.contains ip))).contains t.ip && t.open_)
          = false := by
        rw [hf]
        rfl
      rw [if_neg (by rw [hcond]; exact Bool.false_ne_true)]
    rw [h1]
    have h2 : fullSweepPass2 tm (carg.getD now) t = t := by
      unfold fullSweepPass2
      have hcond : (tm.ips.contains t.ip && t.open_ && t.port != 0 &&
          tm.protocols.contains t.protocol &&
          !(tm.seen_ip_port.contains (t.ip, t.port))) = false := by
        rw [hpair]
        simp
      rw [if_neg (by rw [hcond]; exact Bool.false_ne_true)]
    rw [h2]
  · rw [List.getElem?_map, hget, Option.map_some']
    have h3 : portClosePass tm (carg.getD now) t = t := by
      unfold portClosePass
      have hcond : (tm.ips.contains t.ip && t.open_ &&
          tm.ports.contains t.port && tm.protocols.contains t.protocol &&
          !(tm.seen_ip_port.contains (t.ip, t.port))) = false := by
        rw [hpair]
        simp
      rw [if_neg (by rw [hcond]; exact Bool.false_ne_true)]
    rw [h3]

/-- C9 (amended): VulnTicketManager.open_ticket adds the id of the resolved
ticket (verify, reopen, or create) to the seen set in every branch, and its
close_tickets leaves every ticket whose id is in the seen set untouched.
IPPortTicketManager.open_ticket, however, never touches the seen set, which
is populated only through the separate port_open calls; its close_tickets
leaves a ticket untouched only when (ip, port) was recorded by port_open,
so a ticket observed via open_ticket alone is still closed. -/
theorem mark_seen_amended :
    (∀ (tm : VulnTM) (db : DB) (v : VulnScan) (reason : String) (now : Int),
      ((VulnTM.open_ticket tm db v reason now).1).seen_ticket_ids
        = sadd (resolvedVulnId tm db v now) tm.seen_ticket_ids)
    ∧ (∀ (tm : VulnTM) (db : DB) (now : Int) (i : Nat) (t : Ticket),
      db.tickets[i]? = some t → t.tid ∈ tm.seen_ticket_ids →
      ((VulnTM.close_tickets tm db now).2.tickets)[i]? = some t)
    ∧ (∀ (tm : IPPortTM) (db : DB) (p : PortScan) (reason : String)
        (now : Int),
      ((IPPortTM.open_ticket tm db p reason now).1).seen_ip_port
        = tm.seen_ip_port)
    ∧ (∀ (tm : IPPortTM) (db : DB) (carg : Option Int) (now : Int) (i : Nat)
        (t : Ticket),
      db.tickets[i]? = some t → (t.ip, t.port) ∈ tm.seen_ip_port →
      ((IPPortTM.close_tickets tm db carg now).tickets)[i]? = some t) :=
  ⟨open_ticket_marks_seen,
   vuln_close_skips_seen,
   port_open_ticket_seen,
   port_close_skips_seen⟩

/-- A port finding matching the open ticket cxTicket80. -/
def cxPort80 : PortScan :=
  { pid := 42, ip := 1, port := 80, protocol := "tcp", source := "nmap",
    source_id := 0, name := "open port", service := "http", owner := "own",
    time := 5 }

/-- C9 (counterexample): IPPortTicketManager.open_ticket resolves a finding
for the open port-80 ticket (verify branch) but records nothing in the seen
set, so the close_tickets call of the same run closes that very ticket; the
claim that open_ticket marks the ticket seen so that close_tickets does not
close it fails for IPPortTicketManager. -/
theorem port_open_ticket_not_seen_counterexample :
    ((IPPortTM.open_ticket samplePortTM cxDB2 cxPort80 "r" 0).1).seen_ip_port
      = []
    ∧ (((IPPortTM.close_tickets
          (IPPortTM.open_ticket samplePortTM cxDB2 cxPort80 "r" 0).1
          (IPPortTM.open_ticket samplePortTM cxDB2 cxPort80 "r" 0).2
          none 10).tickets)[0]?).map (fun t => t.open_) = some false := by
  refine ⟨by decide, by decide⟩

/-- A vulnerability manager whose seen set already holds ticket id 100. -/
def sampleVulnTMSeen : VulnTM :=
  { closing_time := none, ips := [1], manual_scan := false, ports := [0, 80],
    reopen_delta := -90, seen_ticket_ids := [100], source := "nmap",
    source_ids := [0] }

theorem mark_seen_amended_witness :
    (cxDB2.tickets[0]? = some cxTicket80
      ∧ cxTicket80.tid ∈ sampleVulnTMSeen.seen_ticket_ids)
    ∧ ((VulnTM.close_tickets sampleVulnTMSeen cxDB2 10).2.tickets)[0]?
        = some cxTicket80 :=
  ⟨⟨by decide, by decide⟩,
   mark_seen_amended.2.1 sampleVulnTMSeen cxDB2 10 0 cxTicket80 (by decide)
     (by decide)⟩

/-! C10: the full-sweep close ignores port and protocol scope. -/

def countAction (a : TicketAction) (l : List Event) : Nat :=
  l.countP (fun e => e.action == a)

theorem countAction_append (a : TicketAction) (l1 l2 : List Event) :
    countAction a (l1 ++ l2) = countAction a l1 + countAction a l2 :=
  List.countP_append _ _ _

theorem countAction_single (a : TicketAction) (e : Event) :
    countAction a [e] = if e.action = a then 1 else 0 := by
  simp [countAction, List.countP_cons]

theorem handle_port_fpexp (ct : Int) (t : Ticket)
    (hfp : t.false_positive = true) (hexp : t.fp_expiration < ct) :
    handle_ticket_port_closed ct t
      = { t with false_positive := false
                 open_ := false
                 time_closed := some ct
                 events := (t.events ++ [fpExpiredEvent ct false]) ++ [closedEvent "port not open" ct false] } := by
  unfold handle_ticket_port_closed
  rw [check_fp_expired false t ct hfp hexp]
  rfl

theorem fullSweepPass2_cases (tm : IPPortTM) (ct : Int) (t : Ticket) :
    fullSweepPass2 tm ct t = handle_ticket_port_closed ct t
    ∨ fullSweepPass2 tm ct t = t := by
  unfold fullSweepPass2
  split
  · exact Or.inl rfl
  · exact Or.inr rfl

theorem fullSweepPass2_closed (tm : IPPortTM) (ct : Int) (t : Ticket)
    (hopen : t.open_ = false) : fullSweepPass2 tm ct t = t := by
  unfold fullSweepPass2
  rw [if_neg]
  intro hc
  rw [hopen] at hc
  simp at hc

/-- C10: when the configured port list has exactly 65535 entries (the
trigger compares only the count), every open ticket of a scoped ip with
zero observed open ports is closed by IPPortTicketManager.close_tickets —
or, when it is a still-unexpired false positive, left open with UNVERIFIED
events appended and no CLOSED event — regardless of the port, source and
protocol of the ticket, including protocols outside the configured set. -/
theorem full_sweep_close_ignores_scope (tm : IPPortTM) (db : DB)
    (carg : Option Int) (now : Int) (i : Nat) (t : Ticket)
    (hlen : tm.ports.length = MAX_PORTS_COUNT)
    (hget : db.tickets[i]? = some t)
    (hopen : t.open_ = true)
    (hip : t.ip ∈ tm.ips)
    (hnoports : ∀ q ∈ tm.seen_ip_port, q.1 ≠ t.ip) :
    ∃ t', ((IPPortTM.close_tickets tm db carg now).tickets)[i]? = some t'
      ∧ ((t.false_positive = true ∧ ¬ t.fp_expiration < carg.getD now) →
          t'.open_ = true ∧ t'.time_closed = t.time_closed
          ∧ countAction TicketAction.CLOSED t'.events
              = countAction TicketAction.CLOSED t.events
          ∧ countAction TicketAction.UNVERIFIED t.events
              < countAction TicketAction.UNVERIFIED t'.events)
      ∧ (¬ (t.false_positive = true ∧ ¬ t.fp_expiration < carg.getD now) →
          t'.open_ = false ∧ t'.time_closed = some (carg.getD now)
          ∧ countAction TicketAction.CLOSED t'.events
              = countAction TicketAction.CLOSED t.events + 1) := by
  have hget2 := ipport_close_full_get tm db carg now i t (by simp [hlen])
    hget
  have hnk : t.ip ∉ tm.seenKeys := by
    intro hmem
    obtain ⟨q, hq, hq2⟩ := List.mem_map.mp hmem
    exact hnoports q hq hq2
  have hcont : (tm.ips.filter
      (fun ip => !(tm.seenKeys.contains ip))).contains t.ip = true := by
    simp [List.mem_filter, hip]
    exact hnk
  have hp1 : fullSweepPass1 tm (carg.getD now) t
      = handle_ticket_port_closed (carg.getD now) t := by
    unfold fullSweepPass1
    rw [if_pos (by rw [hcont, hopen]; rfl)]
  refine ⟨fullSweepPass2 tm (carg.getD now)
    (fullSweepPass1 tm (carg.getD now) t), hget2, ?_, ?_⟩
  · rintro ⟨hfp, hexp⟩
    rw [hp1, handle_port_fp _ _ hfp hexp]
    rcases fullSweepPass2_cases tm (carg.getD now)
        { t with events := t.events ++ [unverifiedEvent "port not open" (carg.getD now) false] } with h2 | h2
    · rw [h2, handle_port_fp (carg.getD now)
        { t with events := t.events ++ [unverifiedEvent "port not open" (carg.getD now) false] }
        hfp hexp]
      refine ⟨hopen, rfl, ?_, ?_⟩
      · simp [countAction, List.countP_append, List.countP_cons,
          unverifiedEvent]
      · simp [countAction, List.countP_append, List.countP_cons,
          unverifiedEvent]
    · rw [h2]
      refine ⟨hopen, rfl, ?_, ?_⟩
      · simp [countAction, List.countP_append, List.countP_cons,
          unverifiedEvent]
      · simp [countAction, List.countP_append, List.countP_cons,
          unverifiedEvent]
  · intro hnfp
    by_cases hfp : t.false_positive = true
    · have hexp : t.fp_expiration < carg.getD now := by
        by_contra hx
        exact hnfp ⟨hfp, hx⟩
      rw [hp1, handle_port_fpexp _ _ hfp hexp,
        fullSweepPass2_closed _ _ _ rfl]
      refine ⟨rfl, rfl, ?_⟩
      simp [countAction, List.countP_append, List.countP_cons,
        fpExpiredEvent, closedEvent]
    · have hfp' : t.false_positive = false := by
        simpa using hfp
      rw [hp1, handle_port_nonfp _ _ hfp', fullSweepPass2_closed _ _ _ rfl]
      refine ⟨rfl, rfl, ?_⟩
      simp [countAction, List.countP_append, List.countP_cons, closedEvent]

/-- An open non-false-positive ticket whose protocol udp is outside the
configured protocol set of tmFull and whose port is nonzero. -/
def cxTicketC10 : Ticket :=
  { tid := 90, ip := 1, port := 443, protocol := "udp", source := "other",
    source_id := 9, owner := "own", loc := none, open_ := true,
    false_positive := false, fp_expiration := 0, details := [],
    time_opened := some 0, time_closed := none, events := [] }

def cxDB10 : DB :=
  { tickets := [cxTicketC10], notifications := [], cveDocs := [],
    kevIds := [], hosts := [], nextId := 91 }

theorem full_sweep_close_ignores_scope_witness :
    (tmFull.ports.length = MAX_PORTS_COUNT
      ∧ cxDB10.tickets[0]? = some cxTicketC10
      ∧ cxTicketC10.open_ = true
      ∧ cxTicketC10.ip ∈ tmFull.ips
      ∧ ∀ q ∈ tmFull.seen_ip_port, q.1 ≠ cxTicketC10.ip)
    ∧ (∃ t', ((IPPortTM.close_tickets tmFull cxDB10 none 10).tickets)[0]?
          = some t'
        ∧ ((cxTicketC10.false_positive = true
            ∧ ¬ cxTicketC10.fp_expiration < (none : Option Int).getD 10) →
            t'.open_ = true ∧ t'.time_closed = cxTicketC10.time_closed
            ∧ countAction TicketAction.CLOSED t'.events
                = countAction TicketAction.CLOSED cxTicketC10.events
            ∧ countAction TicketAction.UNVERIFIED cxTicketC10.events
                < countAction TicketAction.UNVERIFIED t'.events)
        ∧ (¬ (cxTicketC10.false_positive = true
            ∧ ¬ cxTicketC10.fp_expiration < (none : Option Int).getD 10) →
            t'.open_ = false
            ∧ t'.time_closed = some ((none : Option Int).getD 10)
            ∧ countAction TicketAction.CLOSED t'.events
                = countAction TicketAction.CLOSED cxTicketC10.events + 1)) :=
  ⟨⟨by rw [show tmFull.ports = List.replicate 65535 0 from rfl,
        List.length_replicate]; rfl,
    by decide, by decide, by decide, by decide⟩,
   full_sweep_close_ignores_scope tmFull cxDB10 none 10 0 cxTicketC10
     (by rw [show tmFull.ports = List.replicate 65535 0 from rfl,
        List.length_replicate]; rfl)
     (by decide) (by decide) (by decide) (by decide)⟩

end CyHy
